import Mathlib

/-!
Verification of `create_feature_classes_system_integration.py`.

The script is a straight-line ArcGIS schema-installation program: thirteen
feature class creation functions, a shared `add_fields` helper, and a
`__main__` block.  Each function is embedded as the sequence of `arcpy` calls
it issues, recorded as values of the `Op` type; field-specification tuples are
embedded as lists of `PyVal`, with Python tuple indexing modelled by
`Option`-returning list indexing.
-/

/-- A Python value occurring in a field-specification tuple of the script:
a string, an integer, or a boolean. -/
inductive PyVal where
  | s (v : String)
  | i (v : Int)
  | b (v : Bool)
deriving DecidableEq

/-- Rendering of a `PyVal` the way Python `str.format` renders it, used for
the per-field progress message in `add_fields`. -/
def PyVal.toText : PyVal → String
  | .s v => v
  | .i v => toString v
  | .b v => if v then "True" else "False"

/-- One call into the `arcpy` API, recorded with its arguments in source
order.  `addMessage` and `addWarning` are log messages; the other
constructors are geodatabase operations.  The spatial reference of
`createFeatureclass` is recorded by its well-known ID. -/
inductive Op where
  | addMessage (message : String)
  | addWarning (message : String)
  | createFeatureclass (out_path : String) (out_name : String)
      (geometry_type : String) (spatial_reference : Nat)
  | addField (in_table : String) (field_name field_type field_precision
      field_scale field_length field_alias field_is_nullable
      field_is_required field_domain : PyVal)
  | addIndex (in_table : String) (fields : String) (index_name : String)
  | changePrivileges (in_dataset : String) (user : String) (view : String)
      (edit : String)
deriving DecidableEq

/-- Whether a call is a geodatabase operation rather than a log message. -/
def Op.isGdb : Op → Bool
  | .addMessage _ => false
  | .addWarning _ => false
  | _ => true

/-- Whether a call is a `CreateFeatureclass` operation. -/
def Op.isCreateFC : Op → Bool
  | .createFeatureclass _ _ _ _ => true
  | _ => false

/-- Whether a call is a `ChangePrivileges` operation. -/
def Op.isChangePriv : Op → Bool
  | .changePrivileges _ _ _ _ => true
  | _ => false

/-- Whether a call is an `AddIndex` operation. -/
def Op.isAddIndex : Op → Bool
  | .addIndex _ _ _ => true
  | _ => false

/-- The dataset a geodatabase operation acts on (`none` for log messages).
For `createFeatureclass` it is the path of the dataset being created. -/
def Op.target : Op → Option String
  | .createFeatureclass p n _ _ => some (p ++ "\\" ++ n)
  | .addField t _ _ _ _ _ _ _ _ _ => some t
  | .addIndex t _ _ => some t
  | .changePrivileges d _ _ _ => some d
  | _ => none

/-- Constant `OUTPUT_GEODATABASE` from the source. -/
def OUTPUT_GEODATABASE : String := "Database Connections\\orcl$gis.sde"

/-- Constant `UTM_16N_NAD83`, the spatial reference
`arcpy.SpatialReference(26916)`, recorded by its well-known ID. -/
def UTM_16N_NAD83 : Nat := 26916

/-- Feature class name constant from the source. -/
def FC_NAME_ERP : String := "GIS.DATABASES_ERP"

/-- Feature class name constant from the source. -/
def FC_NAME_ERP_SITE : String := "GIS.DATABASES_ERP_SITE"

/-- Feature class name constant from the source. -/
def FC_NAME_ERP_SITE_40A_4 : String := "GIS.DATABASES_ERP_SITE_40A_4"

/-- Feature class name constant from the source. -/
def FC_NAME_ERP_SITE_40A_44 : String := "GIS.DATABASES_ERP_SITE_40A_44"

/-- Feature class name constant from the source. -/
def FC_NAME_ERP_SITE_62_330 : String := "GIS.DATABASES_ERP_SITE_62_330"

/-- Feature class name constant from the source. -/
def FC_NAME_ERP_SITE_FORESTRY : String := "GIS.DATABASES_ERP_SITE_FORESTRY"

/-- Feature class name constant from the source. -/
def FC_NAME_MSSW : String := "GIS.DATABASES_MSSW"

/-- Feature class name constant from the source. -/
def FC_NAME_REG_STATION : String := "GIS.DATABASES_REG_STATION"

/-- Feature class name constant from the source. -/
def FC_NAME_WI : String := "GIS.DATABASES_WELL_INVENTORY"

/-- Feature class name constant from the source. -/
def FC_NAME_WPS : String := "GIS.DATABASES_WELL_PERMITS"

/-- Feature class name constant from the source. -/
def FC_NAME_WUP_PERMITTED : String := "GIS.DATABASES_WUP_PERMITTED"

/-- Feature class name constant from the source. -/
def FC_NAME_WUP_SURFACE : String := "GIS.DATABASES_WUP_SURFACE"

/-- Feature class name constant from the source. -/
def FC_NAME_WUP_WELLS : String := "GIS.DATABASES_WUP_WELLS"

/-- Windows `os.path.join` as used at every call site of the script: joining
a relative base path with a relative name inserts a single backslash. -/
def os_path_join (a b : String) : String := a ++ "\\" ++ b

/-- Embedding of `add_fields`: iterate over the field specifications and, for
each one, emit the progress message and one `AddField` call whose nine keyword
arguments are the components `field_spec[0]` .. `field_spec[8]` of the
specification.  Python tuple indexing is embedded as `Option`-returning list
indexing, so the result is `none` exactly when some specification has fewer
than nine components (where Python would raise `IndexError`); the function is
structurally recursive, hence total. -/
def add_fields (table : String) : List (List PyVal) → Option (List Op)
  | [] => some []
  | field_spec :: rest => do
      let n ← field_spec[0]?
      let t ← field_spec[1]?
      let p ← field_spec[2]?
      let sc ← field_spec[3]?
      let ln ← field_spec[4]?
      let al ← field_spec[5]?
      let nl ← field_spec[6]?
      let rq ← field_spec[7]?
      let dm ← field_spec[8]?
      let ops ← add_fields table rest
      pure (Op.addMessage ("\t\tAdding " ++ n.toText) ::
        Op.addField table n t p sc ln al nl rq dm :: ops)
/-- The `fields_spec` literal of `create_databases_erp`: one 9-element
specification per column, transcribed row by row from the source. -/
def erp_fields_spec : List (List PyVal) := [
   [PyVal.s "application_number", PyVal.s "DOUBLE", PyVal.s "", PyVal.s "", PyVal.s "", PyVal.s "", PyVal.b true, PyVal.s "", PyVal.s ""]
  ,[PyVal.s "permit_number", PyVal.s "DOUBLE", PyVal.s "", PyVal.s "", PyVal.s "", PyVal.s "", PyVal.b true, PyVal.s "", PyVal.s ""]
  ,[PyVal.s "legacy_permit_number", PyVal.s "TEXT", PyVal.s "", PyVal.s "", PyVal.i 35, PyVal.s "", PyVal.b true, PyVal.s "", PyVal.s ""]
  ,[PyVal.s "applicant_first_name", PyVal.s "TEXT", PyVal.s "", PyVal.s "", PyVal.i 30, PyVal.s "", PyVal.b true, PyVal.s "", PyVal.s ""]
  ,[PyVal.s "applicant_last_name", PyVal.s "TEXT", PyVal.s "", PyVal.s "", PyVal.i 30, PyVal.s "", PyVal.b true, PyVal.s "", PyVal.s ""]
  ,[PyVal.s "applicant_company_name", PyVal.s "TEXT", PyVal.s "", PyVal.s "", PyVal.i 150, PyVal.s "", PyVal.b true, PyVal.s "", PyVal.s ""]
  ,[PyVal.s "project_name", PyVal.s "TEXT", PyVal.s "", PyVal.s "", PyVal.i 200, PyVal.s "", PyVal.b true, PyVal.s "", PyVal.s ""]
  ,[PyVal.s "project_address", PyVal.s "TEXT", PyVal.s "", PyVal.s "", PyVal.i 1000, PyVal.s "", PyVal.b true, PyVal.s "", PyVal.s ""]
  ,[PyVal.s "issue_date", PyVal.s "DATE", PyVal.s "", PyVal.s "", PyVal.s "", PyVal.s "", PyVal.b true, PyVal.s "", PyVal.s ""]
  ,[PyVal.s "expiration_date", PyVal.s "DATE", PyVal.s "", PyVal.s "", PyVal.s "", PyVal.s "", PyVal.b true, PyVal.s "", PyVal.s ""]
  ,[PyVal.s "rule_type", PyVal.s "TEXT", PyVal.s "", PyVal.s "", PyVal.i 17, PyVal.s "", PyVal.b true, PyVal.s "", PyVal.s ""]
  ]

/-- The `fields_spec` literal of `create_databases_erp_site`: one 9-element
specification per column, transcribed row by row from the source. -/
def erp_site_fields_spec : List (List PyVal) := [
   [PyVal.s "site_id", PyVal.s "DOUBLE", PyVal.s "", PyVal.s "", PyVal.s "", PyVal.s "", PyVal.b true, PyVal.s "", PyVal.s ""]
  ,[PyVal.s "permit_number", PyVal.s "DOUBLE", PyVal.s "", PyVal.s "", PyVal.s "", PyVal.s "", PyVal.b true, PyVal.s "", PyVal.s ""]
  ,[PyVal.s "project_number", PyVal.s "TEXT", PyVal.s "", PyVal.s "", PyVal.i 50, PyVal.s "", PyVal.b true, PyVal.s "", PyVal.s ""]
  ,[PyVal.s "permit_type", PyVal.s "TEXT", PyVal.s "", PyVal.s "", PyVal.i 8, PyVal.s "", PyVal.b true, PyVal.s "", PyVal.s ""]
  ,[PyVal.s "county_fips", PyVal.s "TEXT", PyVal.s "", PyVal.s "", PyVal.i 8, PyVal.s "", PyVal.b true, PyVal.s "", PyVal.s ""]
  ,[PyVal.s "official_permit_number", PyVal.s "TEXT", PyVal.s "", PyVal.s "", PyVal.i 8, PyVal.s "", PyVal.b true, PyVal.s "", PyVal.s ""]
  ,[PyVal.s "sequence_number", PyVal.s "TEXT", PyVal.s "", PyVal.s "", PyVal.i 8, PyVal.s "", PyVal.b true, PyVal.s "", PyVal.s ""]
  ,[PyVal.s "application_status", PyVal.s "TEXT", PyVal.s "", PyVal.s "", PyVal.i 100, PyVal.s "", PyVal.b true, PyVal.s "", PyVal.s ""]
  ,[PyVal.s "rule_code", PyVal.s "TEXT", PyVal.s "", PyVal.s "", PyVal.i 100, PyVal.s "", PyVal.b true, PyVal.s "", PyVal.s ""]
  ,[PyVal.s "rule_description", PyVal.s "TEXT", PyVal.s "", PyVal.s "", PyVal.i 200, PyVal.s "", PyVal.b true, PyVal.s "", PyVal.s ""]
  ,[PyVal.s "project_name", PyVal.s "TEXT", PyVal.s "", PyVal.s "", PyVal.i 200, PyVal.s "", PyVal.b true, PyVal.s "", PyVal.s ""]
  ,[PyVal.s "project_county", PyVal.s "TEXT", PyVal.s "", PyVal.s "", PyVal.i 20, PyVal.s "", PyVal.b true, PyVal.s "", PyVal.s ""]
  ,[PyVal.s "site_location", PyVal.s "TEXT", PyVal.s "", PyVal.s "", PyVal.i 1000, PyVal.s "", PyVal.b true, PyVal.s "", PyVal.s ""]
  ,[PyVal.s "party_role", PyVal.s "TEXT", PyVal.s "", PyVal.s "", PyVal.i 100, PyVal.s "", PyVal.b true, PyVal.s "", PyVal.s ""]
  ,[PyVal.s "party_company_name", PyVal.s "TEXT", PyVal.s "", PyVal.s "", PyVal.i 150, PyVal.s "", PyVal.b true, PyVal.s "", PyVal.s ""]
  ,[PyVal.s "party_first_name", PyVal.s "TEXT", PyVal.s "", PyVal.s "", PyVal.i 30, PyVal.s "", PyVal.b true, PyVal.s "", PyVal.s ""]
  ,[PyVal.s "party_last_name", PyVal.s "TEXT", PyVal.s "", PyVal.s "", PyVal.i 30, PyVal.s "", PyVal.b true, PyVal.s "", PyVal.s ""]
  ,[PyVal.s "expiration_date", PyVal.s "DATE", PyVal.s "", PyVal.s "", PyVal.s "", PyVal.s "", PyVal.b true, PyVal.s "", PyVal.s ""]
  ,[PyVal.s "issue_date", PyVal.s "DATE", PyVal.s "", PyVal.s "", PyVal.s "", PyVal.s "", PyVal.b true, PyVal.s "", PyVal.s ""]
  ,[PyVal.s "review_date", PyVal.s "DATE", PyVal.s "", PyVal.s "", PyVal.s "", PyVal.s "", PyVal.b true, PyVal.s "", PyVal.s ""]
  ,[PyVal.s "legacy_permit_number", PyVal.s "TEXT", PyVal.s "", PyVal.s "", PyVal.i 35, PyVal.s "", PyVal.b true, PyVal.s "", PyVal.s ""]
  ,[PyVal.s "item_number", PyVal.s "DOUBLE", PyVal.s "", PyVal.s "", PyVal.s "", PyVal.s "", PyVal.b true, PyVal.s "", PyVal.s ""]
  ,[PyVal.s "item_type", PyVal.s "TEXT", PyVal.s "", PyVal.s "", PyVal.i 100, PyVal.s "", PyVal.b true, PyVal.s "", PyVal.s ""]
  ,[PyVal.s "item_stage", PyVal.s "TEXT", PyVal.s "", PyVal.s "", PyVal.i 100, PyVal.s "", PyVal.b true, PyVal.s "", PyVal.s ""]
  ]

/-- The `fields_spec` literal of `create_databases_erp_site_40a_4`: one 9-element
specification per column, transcribed row by row from the source. -/
def erp_site_40a_4_fields_spec : List (List PyVal) := [
   [PyVal.s "site_id", PyVal.s "DOUBLE", PyVal.s "", PyVal.s "", PyVal.s "", PyVal.s "", PyVal.b true, PyVal.s "", PyVal.s ""]
  ,[PyVal.s "permit_number", PyVal.s "DOUBLE", PyVal.s "", PyVal.s "", PyVal.s "", PyVal.s "", PyVal.b true, PyVal.s "", PyVal.s ""]
  ,[PyVal.s "project_number", PyVal.s "TEXT", PyVal.s "", PyVal.s "", PyVal.i 50, PyVal.s "", PyVal.b true, PyVal.s "", PyVal.s ""]
  ,[PyVal.s "permit_type", PyVal.s "TEXT", PyVal.s "", PyVal.s "", PyVal.i 8, PyVal.s "", PyVal.b true, PyVal.s "", PyVal.s ""]
  ,[PyVal.s "county_fips", PyVal.s "TEXT", PyVal.s "", PyVal.s "", PyVal.i 8, PyVal.s "", PyVal.b true, PyVal.s "", PyVal.s ""]
  ,[PyVal.s "official_permit_number", PyVal.s "TEXT", PyVal.s "", PyVal.s "", PyVal.i 8, PyVal.s "", PyVal.b true, PyVal.s "", PyVal.s ""]
  ,[PyVal.s "sequence_number", PyVal.s "TEXT", PyVal.s "", PyVal.s "", PyVal.i 8, PyVal.s "", PyVal.b true, PyVal.s "", PyVal.s ""]
  ,[PyVal.s "application_status", PyVal.s "TEXT", PyVal.s "", PyVal.s "", PyVal.i 100, PyVal.s "", PyVal.b true, PyVal.s "", PyVal.s ""]
  ,[PyVal.s "rule_code", PyVal.s "TEXT", PyVal.s "", PyVal.s "", PyVal.i 100, PyVal.s "", PyVal.b true, PyVal.s "", PyVal.s ""]
  ,[PyVal.s "rule_description", PyVal.s "TEXT", PyVal.s "", PyVal.s "", PyVal.i 200, PyVal.s "", PyVal.b true, PyVal.s "", PyVal.s ""]
  ,[PyVal.s "project_name", PyVal.s "TEXT", PyVal.s "", PyVal.s "", PyVal.i 200, PyVal.s "", PyVal.b true, PyVal.s "", PyVal.s ""]
  ,[PyVal.s "project_county", PyVal.s "TEXT", PyVal.s "", PyVal.s "", PyVal.i 20, PyVal.s "", PyVal.b true, PyVal.s "", PyVal.s ""]
  ,[PyVal.s "site_location", PyVal.s "TEXT", PyVal.s "", PyVal.s "", PyVal.i 1000, PyVal.s "", PyVal.b true, PyVal.s "", PyVal.s ""]
  ,[PyVal.s "expiration_date", PyVal.s "DATE", PyVal.s "", PyVal.s "", PyVal.s "", PyVal.s "", PyVal.b true, PyVal.s "", PyVal.s ""]
  ,[PyVal.s "issue_date", PyVal.s "DATE", PyVal.s "", PyVal.s "", PyVal.s "", PyVal.s "", PyVal.b true, PyVal.s "", PyVal.s ""]
  ,[PyVal.s "review_date", PyVal.s "DATE", PyVal.s "", PyVal.s "", PyVal.s "", PyVal.s "", PyVal.b true, PyVal.s "", PyVal.s ""]
  ,[PyVal.s "legacy_permit_number", PyVal.s "TEXT", PyVal.s "", PyVal.s "", PyVal.i 35, PyVal.s "", PyVal.b true, PyVal.s "", PyVal.s ""]
  ,[PyVal.s "item_number", PyVal.s "DOUBLE", PyVal.s "", PyVal.s "", PyVal.s "", PyVal.s "", PyVal.b true, PyVal.s "", PyVal.s ""]
  ,[PyVal.s "item_type", PyVal.s "TEXT", PyVal.s "", PyVal.s "", PyVal.i 100, PyVal.s "", PyVal.b true, PyVal.s "", PyVal.s ""]
  ,[PyVal.s "item_stage", PyVal.s "TEXT", PyVal.s "", PyVal.s "", PyVal.i 100, PyVal.s "", PyVal.b true, PyVal.s "", PyVal.s ""]
  ]

/-- The `fields_spec` literal of `create_databases_erp_site_40a_44`: one 9-element
specification per column, transcribed row by row from the source. -/
def erp_site_40a_44_fields_spec : List (List PyVal) := [
   [PyVal.s "site_id", PyVal.s "DOUBLE", PyVal.s "", PyVal.s "", PyVal.s "", PyVal.s "", PyVal.b true, PyVal.s "", PyVal.s ""]
  ,[PyVal.s "permit_number", PyVal.s "DOUBLE", PyVal.s "", PyVal.s "", PyVal.s "", PyVal.s "", PyVal.b true, PyVal.s "", PyVal.s ""]
  ,[PyVal.s "project_number", PyVal.s "TEXT", PyVal.s "", PyVal.s "", PyVal.i 50, PyVal.s "", PyVal.b true, PyVal.s "", PyVal.s ""]
  ,[PyVal.s "permit_type", PyVal.s "TEXT", PyVal.s "", PyVal.s "", PyVal.i 8, PyVal.s "", PyVal.b true, PyVal.s "", PyVal.s ""]
  ,[PyVal.s "county_fips", PyVal.s "TEXT", PyVal.s "", PyVal.s "", PyVal.i 8, PyVal.s "", PyVal.b true, PyVal.s "", PyVal.s ""]
  ,[PyVal.s "official_permit_number", PyVal.s "TEXT", PyVal.s "", PyVal.s "", PyVal.i 8, PyVal.s "", PyVal.b true, PyVal.s "", PyVal.s ""]
  ,[PyVal.s "sequence_number", PyVal.s "TEXT", PyVal.s "", PyVal.s "", PyVal.i 8, PyVal.s "", PyVal.b true, PyVal.s "", PyVal.s ""]
  ,[PyVal.s "application_status", PyVal.s "TEXT", PyVal.s "", PyVal.s "", PyVal.i 100, PyVal.s "", PyVal.b true, PyVal.s "", PyVal.s ""]
  ,[PyVal.s "rule_code", PyVal.s "TEXT", PyVal.s "", PyVal.s "", PyVal.i 100, PyVal.s "", PyVal.b true, PyVal.s "", PyVal.s ""]
  ,[PyVal.s "rule_description", PyVal.s "TEXT", PyVal.s "", PyVal.s "", PyVal.i 200, PyVal.s "", PyVal.b true, PyVal.s "", PyVal.s ""]
  ,[PyVal.s "project_name", PyVal.s "TEXT", PyVal.s "", PyVal.s "", PyVal.i 200, PyVal.s "", PyVal.b true, PyVal.s "", PyVal.s ""]
  ,[PyVal.s "project_county", PyVal.s "TEXT", PyVal.s "", PyVal.s "", PyVal.i 20, PyVal.s "", PyVal.b true, PyVal.s "", PyVal.s ""]
  ,[PyVal.s "site_location", PyVal.s "TEXT", PyVal.s "", PyVal.s "", PyVal.i 1000, PyVal.s "", PyVal.b true, PyVal.s "", PyVal.s ""]
  ,[PyVal.s "expiration_date", PyVal.s "DATE", PyVal.s "", PyVal.s "", PyVal.s "", PyVal.s "", PyVal.b true, PyVal.s "", PyVal.s ""]
  ,[PyVal.s "issue_date", PyVal.s "DATE", PyVal.s "", PyVal.s "", PyVal.s "", PyVal.s "", PyVal.b true, PyVal.s "", PyVal.s ""]
  ,[PyVal.s "review_date", PyVal.s "DATE", PyVal.s "", PyVal.s "", PyVal.s "", PyVal.s "", PyVal.b true, PyVal.s "", PyVal.s ""]
  ,[PyVal.s "legacy_permit_number", PyVal.s "TEXT", PyVal.s "", PyVal.s "", PyVal.i 35, PyVal.s "", PyVal.b true, PyVal.s "", PyVal.s ""]
  ,[PyVal.s "item_number", PyVal.s "DOUBLE", PyVal.s "", PyVal.s "", PyVal.s "", PyVal.s "", PyVal.b true, PyVal.s "", PyVal.s ""]
  ,[PyVal.s "item_type", PyVal.s "TEXT", PyVal.s "", PyVal.s "", PyVal.i 100, PyVal.s "", PyVal.b true, PyVal.s "", PyVal.s ""]
  ,[PyVal.s "item_stage", PyVal.s "TEXT", PyVal.s "", PyVal.s "", PyVal.i 100, PyVal.s "", PyVal.b true, PyVal.s "", PyVal.s ""]
  ]

/-- The `fields_spec` literal of `create_databases_erp_site_62_330`: one 9-element
specification per column, transcribed row by row from the source. -/
def erp_site_62_330_fields_spec : List (List PyVal) := [
   [PyVal.s "site_id", PyVal.s "DOUBLE", PyVal.s "", PyVal.s "", PyVal.s "", PyVal.s "", PyVal.b true, PyVal.s "", PyVal.s ""]
  ,[PyVal.s "permit_number", PyVal.s "DOUBLE", PyVal.s "", PyVal.s "", PyVal.s "", PyVal.s "", PyVal.b true, PyVal.s "", PyVal.s ""]
  ,[PyVal.s "project_number", PyVal.s "TEXT", PyVal.s "", PyVal.s "", PyVal.i 50, PyVal.s "", PyVal.b true, PyVal.s "", PyVal.s ""]
  ,[PyVal.s "permit_type", PyVal.s "TEXT", PyVal.s "", PyVal.s "", PyVal.i 8, PyVal.s "", PyVal.b true, PyVal.s "", PyVal.s ""]
  ,[PyVal.s "county_fips", PyVal.s "TEXT", PyVal.s "", PyVal.s "", PyVal.i 8, PyVal.s "", PyVal.b true, PyVal.s "", PyVal.s ""]
  ,[PyVal.s "official_permit_number", PyVal.s "TEXT", PyVal.s "", PyVal.s "", PyVal.i 8, PyVal.s "", PyVal.b true, PyVal.s "", PyVal.s ""]
  ,[PyVal.s "sequence_number", PyVal.s "TEXT", PyVal.s "", PyVal.s "", PyVal.i 8, PyVal.s "", PyVal.b true, PyVal.s "", PyVal.s ""]
  ,[PyVal.s "application_status", PyVal.s "TEXT", PyVal.s "", PyVal.s "", PyVal.i 100, PyVal.s "", PyVal.b true, PyVal.s "", PyVal.s ""]
  ,[PyVal.s "rule_code", PyVal.s "TEXT", PyVal.s "", PyVal.s "", PyVal.i 100, PyVal.s "", PyVal.b true, PyVal.s "", PyVal.s ""]
  ,[PyVal.s "rule_description", PyVal.s "TEXT", PyVal.s "", PyVal.s "", PyVal.i 200, PyVal.s "", PyVal.b true, PyVal.s "", PyVal.s ""]
  ,[PyVal.s "project_name", PyVal.s "TEXT", PyVal.s "", PyVal.s "", PyVal.i 200, PyVal.s "", PyVal.b true, PyVal.s "", PyVal.s ""]
  ,[PyVal.s "project_county", PyVal.s "TEXT", PyVal.s "", PyVal.s "", PyVal.i 20, PyVal.s "", PyVal.b true, PyVal.s "", PyVal.s ""]
  ,[PyVal.s "site_location", PyVal.s "TEXT", PyVal.s "", PyVal.s "", PyVal.i 1000, PyVal.s "", PyVal.b true, PyVal.s "", PyVal.s ""]
  ,[PyVal.s "expiration_date", PyVal.s "DATE", PyVal.s "", PyVal.s "", PyVal.s "", PyVal.s "", PyVal.b true, PyVal.s "", PyVal.s ""]
  ,[PyVal.s "issue_date", PyVal.s "DATE", PyVal.s "", PyVal.s "", PyVal.s "", PyVal.s "", PyVal.b true, PyVal.s "", PyVal.s ""]
  ,[PyVal.s "review_date", PyVal.s "DATE", PyVal.s "", PyVal.s "", PyVal.s "", PyVal.s "", PyVal.b true, PyVal.s "", PyVal.s ""]
  ,[PyVal.s "legacy_permit_number", PyVal.s "TEXT", PyVal.s "", PyVal.s "", PyVal.i 35, PyVal.s "", PyVal.b true, PyVal.s "", PyVal.s ""]
  ,[PyVal.s "item_number", PyVal.s "DOUBLE", PyVal.s "", PyVal.s "", PyVal.s "", PyVal.s "", PyVal.b true, PyVal.s "", PyVal.s ""]
  ,[PyVal.s "item_type", PyVal.s "TEXT", PyVal.s "", PyVal.s "", PyVal.i 100, PyVal.s "", PyVal.b true, PyVal.s "", PyVal.s ""]
  ,[PyVal.s "item_stage", PyVal.s "TEXT", PyVal.s "", PyVal.s "", PyVal.i 100, PyVal.s "", PyVal.b true, PyVal.s "", PyVal.s ""]
  ]

/-- The `fields_spec` literal of `create_databases_erp_site_forestry`: one 9-element
specification per column, transcribed row by row from the source. -/
def erp_site_forestry_fields_spec : List (List PyVal) := [
   [PyVal.s "site_id", PyVal.s "DOUBLE", PyVal.s "", PyVal.s "", PyVal.s "", PyVal.s "", PyVal.b true, PyVal.s "", PyVal.s ""]
  ,[PyVal.s "permit_number", PyVal.s "DOUBLE", PyVal.s "", PyVal.s "", PyVal.s "", PyVal.s "", PyVal.b true, PyVal.s "", PyVal.s ""]
  ,[PyVal.s "project_number", PyVal.s "TEXT", PyVal.s "", PyVal.s "", PyVal.i 50, PyVal.s "", PyVal.b true, PyVal.s "", PyVal.s ""]
  ,[PyVal.s "permit_type", PyVal.s "TEXT", PyVal.s "", PyVal.s "", PyVal.i 8, PyVal.s "", PyVal.b true, PyVal.s "", PyVal.s ""]
  ,[PyVal.s "county_fips", PyVal.s "TEXT", PyVal.s "", PyVal.s "", PyVal.i 8, PyVal.s "", PyVal.b true, PyVal.s "", PyVal.s ""]
  ,[PyVal.s "official_permit_number", PyVal.s "TEXT", PyVal.s "", PyVal.s "", PyVal.i 8, PyVal.s "", PyVal.b true, PyVal.s "", PyVal.s ""]
  ,[PyVal.s "sequence_number", PyVal.s "TEXT", PyVal.s "", PyVal.s "", PyVal.i 8, PyVal.s "", PyVal.b true, PyVal.s "", PyVal.s ""]
  ,[PyVal.s "application_status", PyVal.s "TEXT", PyVal.s "", PyVal.s "", PyVal.i 100, PyVal.s "", PyVal.b true, PyVal.s "", PyVal.s ""]
  ,[PyVal.s "rule_code", PyVal.s "TEXT", PyVal.s "", PyVal.s "", PyVal.i 100, PyVal.s "", PyVal.b true, PyVal.s "", PyVal.s ""]
  ,[PyVal.s "rule_description", PyVal.s "TEXT", PyVal.s "", PyVal.s "", PyVal.i 200, PyVal.s "", PyVal.b true, PyVal.s "", PyVal.s ""]
  ,[PyVal.s "project_name", PyVal.s "TEXT", PyVal.s "", PyVal.s "", PyVal.i 200, PyVal.s "", PyVal.b true, PyVal.s "", PyVal.s ""]
  ,[PyVal.s "project_county", PyVal.s "TEXT", PyVal.s "", PyVal.s "", PyVal.i 20, PyVal.s "", PyVal.b true, PyVal.s "", PyVal.s ""]
  ,[PyVal.s "site_location", PyVal.s "TEXT", PyVal.s "", PyVal.s "", PyVal.i 1000, PyVal.s "", PyVal.b true, PyVal.s "", PyVal.s ""]
  ,[PyVal.s "expiration_date", PyVal.s "DATE", PyVal.s "", PyVal.s "", PyVal.s "", PyVal.s "", PyVal.b true, PyVal.s "", PyVal.s ""]
  ,[PyVal.s "issue_date", PyVal.s "DATE", PyVal.s "", PyVal.s "", PyVal.s "", PyVal.s "", PyVal.b true, PyVal.s "", PyVal.s ""]
  ,[PyVal.s "review_date", PyVal.s "DATE", PyVal.s "", PyVal.s "", PyVal.s "", PyVal.s "", PyVal.b true, PyVal.s "", PyVal.s ""]
  ,[PyVal.s "legacy_permit_number", PyVal.s "TEXT", PyVal.s "", PyVal.s "", PyVal.i 35, PyVal.s "", PyVal.b true, PyVal.s "", PyVal.s ""]
  ,[PyVal.s "item_number", PyVal.s "DOUBLE", PyVal.s "", PyVal.s "", PyVal.s "", PyVal.s "", PyVal.b true, PyVal.s "", PyVal.s ""]
  ,[PyVal.s "item_type", PyVal.s "TEXT", PyVal.s "", PyVal.s "", PyVal.i 100, PyVal.s "", PyVal.b true, PyVal.s "", PyVal.s ""]
  ,[PyVal.s "item_stage", PyVal.s "TEXT", PyVal.s "", PyVal.s "", PyVal.i 100, PyVal.s "", PyVal.b true, PyVal.s "", PyVal.s ""]
  ]

/-- The `fields_spec` literal of `create_databases_mssw`: one 9-element
specification per column, transcribed row by row from the source. -/
def mssw_fields_spec : List (List PyVal) := [
   [PyVal.s "permit_number", PyVal.s "TEXT", PyVal.s "", PyVal.s "", PyVal.i 35, PyVal.s "", PyVal.b true, PyVal.s "", PyVal.s ""]
  ,[PyVal.s "appl_first_name", PyVal.s "TEXT", PyVal.s "", PyVal.s "", PyVal.i 30, PyVal.s "", PyVal.b true, PyVal.s "", PyVal.s ""]
  ,[PyVal.s "appl_last_name", PyVal.s "TEXT", PyVal.s "", PyVal.s "", PyVal.i 30, PyVal.s "", PyVal.b true, PyVal.s "", PyVal.s ""]
  ,[PyVal.s "applicant_company_name", PyVal.s "TEXT", PyVal.s "", PyVal.s "", PyVal.i 150, PyVal.s "", PyVal.b true, PyVal.s "", PyVal.s ""]
  ,[PyVal.s "project_name", PyVal.s "TEXT", PyVal.s "", PyVal.s "", PyVal.i 200, PyVal.s "", PyVal.b true, PyVal.s "", PyVal.s ""]
  ,[PyVal.s "appl_received", PyVal.s "DATE", PyVal.s "", PyVal.s "", PyVal.s "", PyVal.s "", PyVal.b true, PyVal.s "", PyVal.s ""]
  ]

/-- The `fields_spec` literal of `create_databases_reg_station`: one 9-element
specification per column, transcribed row by row from the source. -/
def reg_station_fields_spec : List (List PyVal) := [
   [PyVal.s "station_id", PyVal.s "TEXT", PyVal.s "", PyVal.s "", PyVal.i 50, PyVal.s "", PyVal.b true, PyVal.s "", PyVal.s ""]
  ,[PyVal.s "project_number", PyVal.s "TEXT", PyVal.s "", PyVal.s "", PyVal.i 50, PyVal.s "", PyVal.b true, PyVal.s "", PyVal.s ""]
  ,[PyVal.s "permit_type", PyVal.s "TEXT", PyVal.s "", PyVal.s "", PyVal.i 8, PyVal.s "", PyVal.b true, PyVal.s "", PyVal.s ""]
  ,[PyVal.s "county_fips", PyVal.s "TEXT", PyVal.s "", PyVal.s "", PyVal.i 8, PyVal.s "", PyVal.b true, PyVal.s "", PyVal.s ""]
  ,[PyVal.s "official_permit_number", PyVal.s "TEXT", PyVal.s "", PyVal.s "", PyVal.i 8, PyVal.s "", PyVal.b true, PyVal.s "", PyVal.s ""]
  ,[PyVal.s "sequence_number", PyVal.s "TEXT", PyVal.s "", PyVal.s "", PyVal.i 8, PyVal.s "", PyVal.b true, PyVal.s "", PyVal.s ""]
  ,[PyVal.s "fluwid", PyVal.s "TEXT", PyVal.s "", PyVal.s "", PyVal.i 50, PyVal.s "", PyVal.b true, PyVal.s "", PyVal.s ""]
  ,[PyVal.s "station_type", PyVal.s "TEXT", PyVal.s "", PyVal.s "", PyVal.i 100, PyVal.s "", PyVal.b true, PyVal.s "", PyVal.s ""]
  ,[PyVal.s "monitoring_well_type", PyVal.s "TEXT", PyVal.s "", PyVal.s "", PyVal.i 100, PyVal.s "", PyVal.b true, PyVal.s "", PyVal.s ""]
  ,[PyVal.s "station_name", PyVal.s "TEXT", PyVal.s "", PyVal.s "", PyVal.i 50, PyVal.s "", PyVal.b true, PyVal.s "", PyVal.s ""]
  ,[PyVal.s "station_status", PyVal.s "TEXT", PyVal.s "", PyVal.s "", PyVal.i 100, PyVal.s "", PyVal.b true, PyVal.s "", PyVal.s ""]
  ,[PyVal.s "water_source_type", PyVal.s "TEXT", PyVal.s "", PyVal.s "", PyVal.i 100, PyVal.s "", PyVal.b true, PyVal.s "", PyVal.s ""]
  ,[PyVal.s "water_source_name", PyVal.s "TEXT", PyVal.s "", PyVal.s "", PyVal.i 100, PyVal.s "", PyVal.b true, PyVal.s "", PyVal.s ""]
  ,[PyVal.s "meter_type", PyVal.s "TEXT", PyVal.s "", PyVal.s "", PyVal.i 100, PyVal.s "", PyVal.b true, PyVal.s "", PyVal.s ""]
  ,[PyVal.s "diameter", PyVal.s "DOUBLE", PyVal.s "", PyVal.s "", PyVal.s "", PyVal.s "", PyVal.b true, PyVal.s "", PyVal.s ""]
  ,[PyVal.s "casing_depth", PyVal.s "DOUBLE", PyVal.s "", PyVal.s "", PyVal.s "", PyVal.s "", PyVal.b true, PyVal.s "", PyVal.s ""]
  ,[PyVal.s "well_depth", PyVal.s "DOUBLE", PyVal.s "", PyVal.s "", PyVal.s "", PyVal.s "", PyVal.b true, PyVal.s "", PyVal.s ""]
  ,[PyVal.s "pump_rate", PyVal.s "DOUBLE", PyVal.s "", PyVal.s "", PyVal.s "", PyVal.s "", PyVal.b true, PyVal.s "", PyVal.s ""]
  ,[PyVal.s "pumping_report", PyVal.s "TEXT", PyVal.s "", PyVal.s "", PyVal.i 7, PyVal.s "", PyVal.b true, PyVal.s "", PyVal.s ""]
  ,[PyVal.s "wq_mi", PyVal.s "TEXT", PyVal.s "", PyVal.s "", PyVal.i 7, PyVal.s "", PyVal.b true, PyVal.s "", PyVal.s ""]
  ,[PyVal.s "wq_lp", PyVal.s "TEXT", PyVal.s "", PyVal.s "", PyVal.i 7, PyVal.s "", PyVal.b true, PyVal.s "", PyVal.s ""]
  ,[PyVal.s "wl_gw", PyVal.s "TEXT", PyVal.s "", PyVal.s "", PyVal.i 7, PyVal.s "", PyVal.b true, PyVal.s "", PyVal.s ""]
  ,[PyVal.s "station_county", PyVal.s "TEXT", PyVal.s "", PyVal.s "", PyVal.i 20, PyVal.s "", PyVal.b true, PyVal.s "", PyVal.s ""]
  ,[PyVal.s "station_location", PyVal.s "TEXT", PyVal.s "", PyVal.s "", PyVal.i 1000, PyVal.s "", PyVal.b true, PyVal.s "", PyVal.s ""]
  ,[PyVal.s "location_method", PyVal.s "TEXT", PyVal.s "", PyVal.s "", PyVal.i 16, PyVal.s "", PyVal.b true, PyVal.s "", PyVal.s ""]
  ,[PyVal.s "project_primary_use", PyVal.s "TEXT", PyVal.s "", PyVal.s "", PyVal.i 100, PyVal.s "", PyVal.b true, PyVal.s "", PyVal.s ""]
  ,[PyVal.s "project_secondary_use", PyVal.s "TEXT", PyVal.s "", PyVal.s "", PyVal.i 100, PyVal.s "", PyVal.b true, PyVal.s "", PyVal.s ""]
  ,[PyVal.s "water_use_level_1", PyVal.s "TEXT", PyVal.s "", PyVal.s "", PyVal.i 100, PyVal.s "", PyVal.b true, PyVal.s "", PyVal.s ""]
  ,[PyVal.s "water_use_level_2", PyVal.s "TEXT", PyVal.s "", PyVal.s "", PyVal.i 100, PyVal.s "", PyVal.b true, PyVal.s "", PyVal.s ""]
  ,[PyVal.s "water_use_level_3", PyVal.s "TEXT", PyVal.s "", PyVal.s "", PyVal.i 100, PyVal.s "", PyVal.b true, PyVal.s "", PyVal.s ""]
  ,[PyVal.s "water_use_level_4", PyVal.s "TEXT", PyVal.s "", PyVal.s "", PyVal.i 100, PyVal.s "", PyVal.b true, PyVal.s "", PyVal.s ""]
  ,[PyVal.s "station_allocation_gpd", PyVal.s "TEXT", PyVal.s "", PyVal.s "", PyVal.i 100, PyVal.s "", PyVal.b true, PyVal.s "", PyVal.s ""]
  ,[PyVal.s "project_allocation_gpd", PyVal.s "DOUBLE", PyVal.s "", PyVal.s "", PyVal.s "", PyVal.s "", PyVal.b true, PyVal.s "", PyVal.s ""]
  ,[PyVal.s "project_allocation_monthly", PyVal.s "DOUBLE", PyVal.s "", PyVal.s "", PyVal.s "", PyVal.s "", PyVal.b true, PyVal.s "", PyVal.s ""]
  ,[PyVal.s "application_status", PyVal.s "TEXT", PyVal.s "", PyVal.s "", PyVal.i 100, PyVal.s "", PyVal.b true, PyVal.s "", PyVal.s ""]
  ,[PyVal.s "expiration_date", PyVal.s "DATE", PyVal.s "", PyVal.s "", PyVal.s "", PyVal.s "", PyVal.b true, PyVal.s "", PyVal.s ""]
  ,[PyVal.s "owner_company_name", PyVal.s "TEXT", PyVal.s "", PyVal.s "", PyVal.i 150, PyVal.s "", PyVal.b true, PyVal.s "", PyVal.s ""]
  ,[PyVal.s "owner_first_name", PyVal.s "TEXT", PyVal.s "", PyVal.s "", PyVal.i 30, PyVal.s "", PyVal.b true, PyVal.s "", PyVal.s ""]
  ,[PyVal.s "owner_last_name", PyVal.s "TEXT", PyVal.s "", PyVal.s "", PyVal.i 30, PyVal.s "", PyVal.b true, PyVal.s "", PyVal.s ""]
  ,[PyVal.s "legacy_apnum", PyVal.s "DOUBLE", PyVal.s "", PyVal.s "", PyVal.s "", PyVal.s "", PyVal.b true, PyVal.s "", PyVal.s ""]
  ,[PyVal.s "legacy_permit_number", PyVal.s "TEXT", PyVal.s "", PyVal.s "", PyVal.i 35, PyVal.s "", PyVal.b true, PyVal.s "", PyVal.s ""]
  ,[PyVal.s "nwf_id", PyVal.s "DOUBLE", PyVal.s "", PyVal.s "", PyVal.s "", PyVal.s "", PyVal.b true, PyVal.s "", PyVal.s ""]
  ,[PyVal.s "wps_permit", PyVal.s "TEXT", PyVal.s "", PyVal.s "", PyVal.i 50, PyVal.s "", PyVal.b true, PyVal.s "", PyVal.s ""]
  ]

/-- The `fields_spec` literal of `create_databases_well_inventory`: one 9-element
specification per column, transcribed row by row from the source. -/
def well_inventory_fields_spec : List (List PyVal) := [
   [PyVal.s "nwf_id", PyVal.s "LONG", PyVal.s "", PyVal.s "", PyVal.s "", PyVal.s "", PyVal.b true, PyVal.s "", PyVal.s ""]
  ,[PyVal.s "site_id", PyVal.s "TEXT", PyVal.s "", PyVal.s "", PyVal.i 15, PyVal.s "", PyVal.b true, PyVal.s "", PyVal.s ""]
  ,[PyVal.s "site_type", PyVal.s "TEXT", PyVal.s "", PyVal.s "", PyVal.i 1, PyVal.s "", PyVal.b true, PyVal.s "", PyVal.s ""]
  ,[PyVal.s "well_name", PyVal.s "TEXT", PyVal.s "", PyVal.s "", PyVal.i 50, PyVal.s "", PyVal.b true, PyVal.s "", PyVal.s ""]
  ,[PyVal.s "first_name", PyVal.s "TEXT", PyVal.s "", PyVal.s "", PyVal.i 30, PyVal.s "", PyVal.b true, PyVal.s "", PyVal.s ""]
  ,[PyVal.s "last_name", PyVal.s "TEXT", PyVal.s "", PyVal.s "", PyVal.i 50, PyVal.s "", PyVal.b true, PyVal.s "", PyVal.s ""]
  ,[PyVal.s "well_depth", PyVal.s "LONG", PyVal.s "", PyVal.s "", PyVal.s "", PyVal.s "", PyVal.b true, PyVal.s "", PyVal.s ""]
  ,[PyVal.s "casing_depth", PyVal.s "LONG", PyVal.s "", PyVal.s "", PyVal.s "", PyVal.s "", PyVal.b true, PyVal.s "", PyVal.s ""]
  ,[PyVal.s "use_permit", PyVal.s "LONG", PyVal.s "", PyVal.s "", PyVal.s "", PyVal.s "", PyVal.b true, PyVal.s "", PyVal.s ""]
  ,[PyVal.s "cps_permit", PyVal.s "TEXT", PyVal.s "", PyVal.s "", PyVal.i 10, PyVal.s "", PyVal.b true, PyVal.s "", PyVal.s ""]
  ,[PyVal.s "state_id", PyVal.s "TEXT", PyVal.s "", PyVal.s "", PyVal.i 7, PyVal.s "", PyVal.b true, PyVal.s "", PyVal.s ""]
  ,[PyVal.s "spcap", PyVal.s "DOUBLE", PyVal.s "", PyVal.s "", PyVal.s "", PyVal.s "", PyVal.b true, PyVal.s "", PyVal.s ""]
  ,[PyVal.s "calc_trans", PyVal.s "LONG", PyVal.s "", PyVal.s "", PyVal.s "", PyVal.s "", PyVal.b true, PyVal.s "", PyVal.s ""]
  ,[PyVal.s "loc_method", PyVal.s "TEXT", PyVal.s "", PyVal.s "", PyVal.i 30, PyVal.s "", PyVal.b true, PyVal.s "", PyVal.s ""]
  ]

/-- The `fields_spec` literal of `create_databases_well_permits`: one 9-element
specification per column, transcribed row by row from the source. -/
def well_permits_fields_spec : List (List PyVal) := [
   [PyVal.s "permit_number", PyVal.s "TEXT", PyVal.s "", PyVal.s "", PyVal.i 50, PyVal.s "", PyVal.b true, PyVal.s "", PyVal.s ""]
  ,[PyVal.s "legacy_permit_number", PyVal.s "TEXT", PyVal.s "", PyVal.s "", PyVal.i 35, PyVal.s "", PyVal.b true, PyVal.s "", PyVal.s ""]
  ,[PyVal.s "related_permit_1", PyVal.s "TEXT", PyVal.s "", PyVal.s "", PyVal.i 50, PyVal.s "", PyVal.b true, PyVal.s "", PyVal.s ""]
  ,[PyVal.s "related_permit_2", PyVal.s "TEXT", PyVal.s "", PyVal.s "", PyVal.i 50, PyVal.s "", PyVal.b true, PyVal.s "", PyVal.s ""]
  ,[PyVal.s "job_type", PyVal.s "TEXT", PyVal.s "", PyVal.s "", PyVal.i 100, PyVal.s "", PyVal.b true, PyVal.s "", PyVal.s ""]
  ,[PyVal.s "status", PyVal.s "TEXT", PyVal.s "", PyVal.s "", PyVal.i 200, PyVal.s "", PyVal.b true, PyVal.s "", PyVal.s ""]
  ,[PyVal.s "official_id", PyVal.s "LONG", PyVal.s "", PyVal.s "", PyVal.s "", PyVal.s "", PyVal.b true, PyVal.s "", PyVal.s ""]
  ,[PyVal.s "issue_date", PyVal.s "DATE", PyVal.s "", PyVal.s "", PyVal.s "", PyVal.s "", PyVal.b true, PyVal.s "", PyVal.s ""]
  ,[PyVal.s "expiration_date", PyVal.s "DATE", PyVal.s "", PyVal.s "", PyVal.s "", PyVal.s "", PyVal.b true, PyVal.s "", PyVal.s ""]
  ,[PyVal.s "completion_date", PyVal.s "DATE", PyVal.s "", PyVal.s "", PyVal.s "", PyVal.s "", PyVal.b true, PyVal.s "", PyVal.s ""]
  ,[PyVal.s "exemption", PyVal.s "TEXT", PyVal.s "", PyVal.s "", PyVal.i 7, PyVal.s "", PyVal.b true, PyVal.s "", PyVal.s ""]
  ,[PyVal.s "owner_first", PyVal.s "TEXT", PyVal.s "", PyVal.s "", PyVal.i 30, PyVal.s "", PyVal.b true, PyVal.s "", PyVal.s ""]
  ,[PyVal.s "owner_last", PyVal.s "TEXT", PyVal.s "", PyVal.s "", PyVal.i 30, PyVal.s "", PyVal.b true, PyVal.s "", PyVal.s ""]
  ,[PyVal.s "well_use", PyVal.s "TEXT", PyVal.s "", PyVal.s "", PyVal.i 100, PyVal.s "", PyVal.b true, PyVal.s "", PyVal.s ""]
  ,[PyVal.s "diameter", PyVal.s "DOUBLE", PyVal.s "", PyVal.s "", PyVal.s "", PyVal.s "", PyVal.b true, PyVal.s "", PyVal.s ""]
  ,[PyVal.s "appl_well_depth", PyVal.s "DOUBLE", PyVal.s "", PyVal.s "", PyVal.s "", PyVal.s "", PyVal.b true, PyVal.s "", PyVal.s ""]
  ,[PyVal.s "appl_casing_depth", PyVal.s "DOUBLE", PyVal.s "", PyVal.s "", PyVal.s "", PyVal.s "", PyVal.b true, PyVal.s "", PyVal.s ""]
  ,[PyVal.s "wcr_well_depth", PyVal.s "DOUBLE", PyVal.s "", PyVal.s "", PyVal.s "", PyVal.s "", PyVal.b true, PyVal.s "", PyVal.s ""]
  ,[PyVal.s "wcr_casing_depth", PyVal.s "DOUBLE", PyVal.s "", PyVal.s "", PyVal.s "", PyVal.s "", PyVal.b true, PyVal.s "", PyVal.s ""]
  ,[PyVal.s "open_hole_from", PyVal.s "DOUBLE", PyVal.s "", PyVal.s "", PyVal.s "", PyVal.s "", PyVal.b true, PyVal.s "", PyVal.s ""]
  ,[PyVal.s "open_hole_to", PyVal.s "DOUBLE", PyVal.s "", PyVal.s "", PyVal.s "", PyVal.s "", PyVal.b true, PyVal.s "", PyVal.s ""]
  ,[PyVal.s "screen_from", PyVal.s "DOUBLE", PyVal.s "", PyVal.s "", PyVal.s "", PyVal.s "", PyVal.b true, PyVal.s "", PyVal.s ""]
  ,[PyVal.s "screen_to", PyVal.s "DOUBLE", PyVal.s "", PyVal.s "", PyVal.s "", PyVal.s "", PyVal.b true, PyVal.s "", PyVal.s ""]
  ,[PyVal.s "well_street", PyVal.s "TEXT", PyVal.s "", PyVal.s "", PyVal.i 60, PyVal.s "", PyVal.b true, PyVal.s "", PyVal.s ""]
  ,[PyVal.s "well_street_2", PyVal.s "TEXT", PyVal.s "", PyVal.s "", PyVal.i 50, PyVal.s "", PyVal.b true, PyVal.s "", PyVal.s ""]
  ,[PyVal.s "well_city", PyVal.s "TEXT", PyVal.s "", PyVal.s "", PyVal.i 30, PyVal.s "", PyVal.b true, PyVal.s "", PyVal.s ""]
  ,[PyVal.s "well_county", PyVal.s "TEXT", PyVal.s "", PyVal.s "", PyVal.i 20, PyVal.s "", PyVal.b true, PyVal.s "", PyVal.s ""]
  ,[PyVal.s "parcel_id", PyVal.s "TEXT", PyVal.s "", PyVal.s "", PyVal.i 50, PyVal.s "", PyVal.b true, PyVal.s "", PyVal.s ""]
  ,[PyVal.s "latitude", PyVal.s "DOUBLE", PyVal.s "", PyVal.s "", PyVal.s "", PyVal.s "", PyVal.b true, PyVal.s "", PyVal.s ""]
  ,[PyVal.s "longitude", PyVal.s "DOUBLE", PyVal.s "", PyVal.s "", PyVal.s "", PyVal.s "", PyVal.b true, PyVal.s "", PyVal.s ""]
  ,[PyVal.s "township", PyVal.s "TEXT", PyVal.s "", PyVal.s "", PyVal.i 3, PyVal.s "", PyVal.b true, PyVal.s "", PyVal.s ""]
  ,[PyVal.s "range", PyVal.s "TEXT", PyVal.s "", PyVal.s "", PyVal.i 3, PyVal.s "", PyVal.b true, PyVal.s "", PyVal.s ""]
  ,[PyVal.s "section", PyVal.s "SHORT", PyVal.s "", PyVal.s "", PyVal.s "", PyVal.s "", PyVal.b true, PyVal.s "", PyVal.s ""]
  ,[PyVal.s "cu_permit", PyVal.s "TEXT", PyVal.s "", PyVal.s "", PyVal.i 50, PyVal.s "", PyVal.b true, PyVal.s "", PyVal.s ""]
  ,[PyVal.s "fluwid", PyVal.s "TEXT", PyVal.s "", PyVal.s "", PyVal.i 50, PyVal.s "", PyVal.b true, PyVal.s "", PyVal.s ""]
  ,[PyVal.s "location_method", PyVal.s "TEXT", PyVal.s "", PyVal.s "", PyVal.i 16, PyVal.s "", PyVal.b true, PyVal.s "", PyVal.s ""]
  ,[PyVal.s "contractor_license", PyVal.s "LONG", PyVal.s "", PyVal.s "", PyVal.s "", PyVal.s "", PyVal.b true, PyVal.s "", PyVal.s ""]
  ,[PyVal.s "contractor_name", PyVal.s "TEXT", PyVal.s "", PyVal.s "", PyVal.i 70, PyVal.s "", PyVal.b true, PyVal.s "", PyVal.s ""]
  ,[PyVal.s "wrca", PyVal.s "TEXT", PyVal.s "", PyVal.s "", PyVal.i 7, PyVal.s "", PyVal.b true, PyVal.s "", PyVal.s ""]
  ,[PyVal.s "arc", PyVal.s "TEXT", PyVal.s "", PyVal.s "", PyVal.i 7, PyVal.s "", PyVal.b true, PyVal.s "", PyVal.s ""]
  ,[PyVal.s "grout_line", PyVal.s "TEXT", PyVal.s "", PyVal.s "", PyVal.i 100, PyVal.s "", PyVal.b true, PyVal.s "", PyVal.s ""]
  ,[PyVal.s "construction_method", PyVal.s "TEXT", PyVal.s "", PyVal.s "", PyVal.i 100, PyVal.s "", PyVal.b true, PyVal.s "", PyVal.s ""]
  ,[PyVal.s "w62_524", PyVal.s "TEXT", PyVal.s "", PyVal.s "", PyVal.i 7, PyVal.s "", PyVal.b true, PyVal.s "", PyVal.s ""]
  ,[PyVal.s "stn_id", PyVal.s "LONG", PyVal.s "", PyVal.s "", PyVal.s "", PyVal.s "", PyVal.b true, PyVal.s "", PyVal.s ""]
  ]

/-- The `fields_spec` literal of `create_databases_wup_permitted`: one 9-element
specification per column, transcribed row by row from the source. -/
def wup_permitted_fields_spec : List (List PyVal) := [
   [PyVal.s "permit_number", PyVal.s "LONG", PyVal.s "", PyVal.s "", PyVal.s "", PyVal.s "", PyVal.b true, PyVal.s "", PyVal.s ""]
  ,[PyVal.s "owner_first_name", PyVal.s "TEXT", PyVal.s "", PyVal.s "", PyVal.i 20, PyVal.s "", PyVal.b true, PyVal.s "", PyVal.s ""]
  ,[PyVal.s "owner_last_name", PyVal.s "TEXT", PyVal.s "", PyVal.s "", PyVal.i 40, PyVal.s "", PyVal.b true, PyVal.s "", PyVal.s ""]
  ,[PyVal.s "project_name", PyVal.s "TEXT", PyVal.s "", PyVal.s "", PyVal.i 80, PyVal.s "", PyVal.b true, PyVal.s "", PyVal.s ""]
  ,[PyVal.s "issue_date", PyVal.s "DATE", PyVal.s "", PyVal.s "", PyVal.s "", PyVal.s "", PyVal.b true, PyVal.s "", PyVal.s ""]
  ,[PyVal.s "expiration_date", PyVal.s "DATE", PyVal.s "", PyVal.s "", PyVal.s "", PyVal.s "", PyVal.b true, PyVal.s "", PyVal.s ""]
  ,[PyVal.s "rule_type", PyVal.s "TEXT", PyVal.s "", PyVal.s "", PyVal.i 15, PyVal.s "", PyVal.b true, PyVal.s "", PyVal.s ""]
  ]

/-- The `fields_spec` literal of `create_databases_wup_surface`: one 9-element
specification per column, transcribed row by row from the source. -/
def wup_surface_fields_spec : List (List PyVal) := [
   [PyVal.s "cu_apnum", PyVal.s "DOUBLE", PyVal.s "", PyVal.s "", PyVal.s "", PyVal.s "", PyVal.b true, PyVal.s "", PyVal.s ""]
  ,[PyVal.s "cu_permit", PyVal.s "TEXT", PyVal.s "", PyVal.s "", PyVal.i 35, PyVal.s "", PyVal.b true, PyVal.s "", PyVal.s ""]
  ,[PyVal.s "ownerlast", PyVal.s "TEXT", PyVal.s "", PyVal.s "", PyVal.i 30, PyVal.s "", PyVal.b true, PyVal.s "", PyVal.s ""]
  ,[PyVal.s "ownerfirst", PyVal.s "TEXT", PyVal.s "", PyVal.s "", PyVal.i 30, PyVal.s "", PyVal.b true, PyVal.s "", PyVal.s ""]
  ,[PyVal.s "address", PyVal.s "TEXT", PyVal.s "", PyVal.s "", PyVal.i 500, PyVal.s "", PyVal.b true, PyVal.s "", PyVal.s ""]
  ,[PyVal.s "pmtmaxmonthly", PyVal.s "DOUBLE", PyVal.s "", PyVal.s "", PyVal.s "", PyVal.s "", PyVal.b true, PyVal.s "", PyVal.s ""]
  ,[PyVal.s "pmtavggpd", PyVal.s "DOUBLE", PyVal.s "", PyVal.s "", PyVal.s "", PyVal.s "", PyVal.b true, PyVal.s "", PyVal.s ""]
  ,[PyVal.s "primaryuse", PyVal.s "TEXT", PyVal.s "", PyVal.s "", PyVal.i 100, PyVal.s "", PyVal.b true, PyVal.s "", PyVal.s ""]
  ,[PyVal.s "other_uses", PyVal.s "TEXT", PyVal.s "", PyVal.s "", PyVal.i 100, PyVal.s "", PyVal.b true, PyVal.s "", PyVal.s ""]
  ,[PyVal.s "expire_date", PyVal.s "DATE", PyVal.s "", PyVal.s "", PyVal.s "", PyVal.s "", PyVal.b true, PyVal.s "", PyVal.s ""]
  ,[PyVal.s "swstateid", PyVal.s "TEXT", PyVal.s "", PyVal.s "", PyVal.i 50, PyVal.s "", PyVal.b true, PyVal.s "", PyVal.s ""]
  ,[PyVal.s "swkey", PyVal.s "DOUBLE", PyVal.s "", PyVal.s "", PyVal.s "", PyVal.s "", PyVal.b true, PyVal.s "", PyVal.s ""]
  ,[PyVal.s "loc_method", PyVal.s "TEXT", PyVal.s "", PyVal.s "", PyVal.i 100, PyVal.s "", PyVal.b true, PyVal.s "", PyVal.s ""]
  ]

/-- The `fields_spec` literal of `create_databases_wup_wells`: one 9-element
specification per column, transcribed row by row from the source. -/
def wup_wells_fields_spec : List (List PyVal) := [
   [PyVal.s "cu_apnum", PyVal.s "DOUBLE", PyVal.s "", PyVal.s "", PyVal.s "", PyVal.s "", PyVal.b true, PyVal.s "", PyVal.s ""]
  ,[PyVal.s "cu_permit", PyVal.s "TEXT", PyVal.s "", PyVal.s "", PyVal.i 35, PyVal.s "", PyVal.b true, PyVal.s "", PyVal.s ""]
  ,[PyVal.s "ownerlast", PyVal.s "TEXT", PyVal.s "", PyVal.s "", PyVal.i 30, PyVal.s "", PyVal.b true, PyVal.s "", PyVal.s ""]
  ,[PyVal.s "ownerfirst", PyVal.s "TEXT", PyVal.s "", PyVal.s "", PyVal.i 30, PyVal.s "", PyVal.b true, PyVal.s "", PyVal.s ""]
  ,[PyVal.s "address", PyVal.s "TEXT", PyVal.s "", PyVal.s "", PyVal.i 500, PyVal.s "", PyVal.b true, PyVal.s "", PyVal.s ""]
  ,[PyVal.s "diameter", PyVal.s "DOUBLE", PyVal.s "", PyVal.s "", PyVal.s "", PyVal.s "", PyVal.b true, PyVal.s "", PyVal.s ""]
  ,[PyVal.s "pmtmaxgpd", PyVal.s "DOUBLE", PyVal.s "", PyVal.s "", PyVal.s "", PyVal.s "", PyVal.b true, PyVal.s "", PyVal.s ""]
  ,[PyVal.s "pmtavggpd", PyVal.s "DOUBLE", PyVal.s "", PyVal.s "", PyVal.s "", PyVal.s "", PyVal.b true, PyVal.s "", PyVal.s ""]
  ,[PyVal.s "primaryuse", PyVal.s "TEXT", PyVal.s "", PyVal.s "", PyVal.i 100, PyVal.s "", PyVal.b true, PyVal.s "", PyVal.s ""]
  ,[PyVal.s "other_uses", PyVal.s "TEXT", PyVal.s "", PyVal.s "", PyVal.i 100, PyVal.s "", PyVal.b true, PyVal.s "", PyVal.s ""]
  ,[PyVal.s "expire_date", PyVal.s "DATE", PyVal.s "", PyVal.s "", PyVal.s "", PyVal.s "", PyVal.b true, PyVal.s "", PyVal.s ""]
  ,[PyVal.s "fluwid", PyVal.s "TEXT", PyVal.s "", PyVal.s "", PyVal.i 50, PyVal.s "", PyVal.b true, PyVal.s "", PyVal.s ""]
  ,[PyVal.s "wps_permit", PyVal.s "TEXT", PyVal.s "", PyVal.s "", PyVal.i 10, PyVal.s "", PyVal.b true, PyVal.s "", PyVal.s ""]
  ,[PyVal.s "nwf_id", PyVal.s "DOUBLE", PyVal.s "", PyVal.s "", PyVal.s "", PyVal.s "", PyVal.b true, PyVal.s "", PyVal.s ""]
  ,[PyVal.s "well_key", PyVal.s "DOUBLE", PyVal.s "", PyVal.s "", PyVal.s "", PyVal.s "", PyVal.b true, PyVal.s "", PyVal.s ""]
  ,[PyVal.s "loc_method", PyVal.s "TEXT", PyVal.s "", PyVal.s "", PyVal.i 100, PyVal.s "", PyVal.b true, PyVal.s "", PyVal.s ""]
  ]
/-- Embedding of `create_databases_erp`: the sequence of `arcpy` calls the
function issues, in source order. -/
def create_databases_erp : Option (List Op) :=
  let fc := os_path_join OUTPUT_GEODATABASE FC_NAME_ERP
  match add_fields fc erp_fields_spec with
  | none => none
  | some field_ops =>
    some ([Op.addMessage ("\n\nCreating feature class " ++ FC_NAME_ERP),
        Op.createFeatureclass OUTPUT_GEODATABASE FC_NAME_ERP "POINT" UTM_16N_NAD83,
        Op.addMessage "\tAdding fields"]
      ++ field_ops
      ++ [Op.addMessage "\tGranting privileges",
        Op.changePrivileges fc "GIS_READ" "GRANT" "AS_IS"])

/-- Embedding of `create_databases_erp_site`: the sequence of `arcpy` calls the
function issues, in source order. -/
def create_databases_erp_site : Option (List Op) :=
  let fc := os_path_join OUTPUT_GEODATABASE FC_NAME_ERP_SITE
  match add_fields fc erp_site_fields_spec with
  | none => none
  | some field_ops =>
    some ([Op.addMessage ("\n\nCreating feature class " ++ FC_NAME_ERP_SITE),
        Op.createFeatureclass OUTPUT_GEODATABASE FC_NAME_ERP_SITE "POINT" UTM_16N_NAD83,
        Op.addMessage "\tAdding fields"]
      ++ field_ops
      ++ [Op.addMessage "\tGranting privileges",
        Op.changePrivileges fc "GIS_READ" "GRANT" "AS_IS"])

/-- Embedding of `create_databases_erp_site_40a_4`: the sequence of `arcpy` calls the
function issues, in source order. -/
def create_databases_erp_site_40a_4 : Option (List Op) :=
  let fc := os_path_join OUTPUT_GEODATABASE FC_NAME_ERP_SITE_40A_4
  match add_fields fc erp_site_40a_4_fields_spec with
  | none => none
  | some field_ops =>
    some ([Op.addMessage ("\n\nCreating feature class " ++ FC_NAME_ERP_SITE_40A_4),
        Op.createFeatureclass OUTPUT_GEODATABASE FC_NAME_ERP_SITE_40A_4 "POINT" UTM_16N_NAD83,
        Op.addMessage "\tAdding fields"]
      ++ field_ops
      ++ [Op.addMessage "\tGranting privileges",
        Op.changePrivileges fc "GIS_READ" "GRANT" "AS_IS"])

/-- Embedding of `create_databases_erp_site_40a_44`: the sequence of `arcpy` calls the
function issues, in source order. -/
def create_databases_erp_site_40a_44 : Option (List Op) :=
  let fc := os_path_join OUTPUT_GEODATABASE FC_NAME_ERP_SITE_40A_44
  match add_fields fc erp_site_40a_44_fields_spec with
  | none => none
  | some field_ops =>
    some ([Op.addMessage ("\n\nCreating feature class " ++ FC_NAME_ERP_SITE_40A_44),
        Op.createFeatureclass OUTPUT_GEODATABASE FC_NAME_ERP_SITE_40A_44 "POINT" UTM_16N_NAD83,
        Op.addMessage "\tAdding fields"]
      ++ field_ops
      ++ [Op.addMessage "\tGranting privileges",
        Op.changePrivileges fc "GIS_READ" "GRANT" "AS_IS"])

/-- Embedding of `create_databases_erp_site_62_330`: the sequence of `arcpy` calls the
function issues, in source order. -/
def create_databases_erp_site_62_330 : Option (List Op) :=
  let fc := os_path_join OUTPUT_GEODATABASE FC_NAME_ERP_SITE_62_330
  match add_fields fc erp_site_62_330_fields_spec with
  | none => none
  | some field_ops =>
    some ([Op.addMessage ("\n\nCreating feature class " ++ FC_NAME_ERP_SITE_62_330),
        Op.createFeatureclass OUTPUT_GEODATABASE FC_NAME_ERP_SITE_62_330 "POINT" UTM_16N_NAD83,
        Op.addMessage "\tAdding fields"]
      ++ field_ops
      ++ [Op.addMessage "\tGranting privileges",
        Op.changePrivileges fc "GIS_READ" "GRANT" "AS_IS"])

/-- Embedding of `create_databases_erp_site_forestry`: the sequence of `arcpy` calls the
function issues, in source order. -/
def create_databases_erp_site_forestry : Option (List Op) :=
  let fc := os_path_join OUTPUT_GEODATABASE FC_NAME_ERP_SITE_FORESTRY
  match add_fields fc erp_site_forestry_fields_spec with
  | none => none
  | some field_ops =>
    some ([Op.addMessage ("\n\nCreating feature class " ++ FC_NAME_ERP_SITE_FORESTRY),
        Op.createFeatureclass OUTPUT_GEODATABASE FC_NAME_ERP_SITE_FORESTRY "POINT" UTM_16N_NAD83,
        Op.addMessage "\tAdding fields"]
      ++ field_ops
      ++ [Op.addMessage "\tGranting privileges",
        Op.changePrivileges fc "GIS_READ" "GRANT" "AS_IS"])

/-- Embedding of `create_databases_mssw`: the sequence of `arcpy` calls the
function issues, in source order. -/
def create_databases_mssw : Option (List Op) :=
  let fc := os_path_join OUTPUT_GEODATABASE FC_NAME_MSSW
  match add_fields fc mssw_fields_spec with
  | none => none
  | some field_ops =>
    some ([Op.addMessage ("\n\nCreating feature class " ++ FC_NAME_MSSW),
        Op.createFeatureclass OUTPUT_GEODATABASE FC_NAME_MSSW "POINT" UTM_16N_NAD83,
        Op.addMessage "\tAdding fields"]
      ++ field_ops
      ++ [Op.addMessage "\tGranting privileges",
        Op.changePrivileges fc "GIS_READ" "GRANT" "AS_IS"])

/-- Embedding of `create_databases_reg_station`: the sequence of `arcpy` calls the
function issues, in source order. -/
def create_databases_reg_station : Option (List Op) :=
  let fc := os_path_join OUTPUT_GEODATABASE FC_NAME_REG_STATION
  match add_fields fc reg_station_fields_spec with
  | none => none
  | some field_ops =>
    some ([Op.addMessage ("\n\nCreating feature class " ++ FC_NAME_REG_STATION),
        Op.createFeatureclass OUTPUT_GEODATABASE FC_NAME_REG_STATION "POINT" UTM_16N_NAD83,
        Op.addMessage "\tAdding fields"]
      ++ field_ops
      ++ [Op.addMessage "\tCreating indexes",
        Op.addIndex fc "FLUWID" (FC_NAME_REG_STATION ++ "__I1"),
        Op.addIndex fc "LEGACY_PERMIT_NUMBER" (FC_NAME_REG_STATION ++ "__I2"),
        Op.addMessage "\tGranting privileges",
        Op.changePrivileges fc "GIS_READ" "GRANT" "AS_IS"])

/-- Embedding of `create_databases_well_inventory`: the sequence of `arcpy` calls the
function issues, in source order. -/
def create_databases_well_inventory : Option (List Op) :=
  let fc := os_path_join OUTPUT_GEODATABASE FC_NAME_WI
  match add_fields fc well_inventory_fields_spec with
  | none => none
  | some field_ops =>
    some ([Op.addMessage ("\n\nCreating feature class " ++ FC_NAME_WI),
        Op.createFeatureclass OUTPUT_GEODATABASE FC_NAME_WI "POINT" UTM_16N_NAD83,
        Op.addMessage "\tAdding fields"]
      ++ field_ops
      ++ [Op.addMessage "\tCreating indexes",
        Op.addIndex fc "NWF_ID" (FC_NAME_WI ++ "__I1"),
        Op.addIndex fc "STATE_ID" (FC_NAME_WI ++ "__I2"),
        Op.addMessage "\tGranting privileges",
        Op.changePrivileges fc "GIS_READ" "GRANT" "AS_IS"])

/-- Embedding of `create_databases_well_permits`: the sequence of `arcpy` calls the
function issues, in source order. -/
def create_databases_well_permits : Option (List Op) :=
  let fc := os_path_join OUTPUT_GEODATABASE FC_NAME_WPS
  match add_fields fc well_permits_fields_spec with
  | none => none
  | some field_ops =>
    some ([Op.addMessage ("\n\nCreating feature class " ++ FC_NAME_WPS),
        Op.createFeatureclass OUTPUT_GEODATABASE FC_NAME_WPS "POINT" UTM_16N_NAD83,
        Op.addMessage "\tAdding fields"]
      ++ field_ops
      ++ [Op.addMessage "\tCreating indexes",
        Op.addIndex fc "FLUWID" (FC_NAME_WPS ++ "__I1"),
        Op.addIndex fc "PERMIT_NUMBER" (FC_NAME_WPS ++ "__I2"),
        Op.addMessage "\tGranting privileges",
        Op.changePrivileges fc "GIS_READ" "GRANT" "AS_IS"])

/-- Embedding of `create_databases_wup_permitted`: the sequence of `arcpy` calls the
function issues, in source order. -/
def create_databases_wup_permitted : Option (List Op) :=
  let fc := os_path_join OUTPUT_GEODATABASE FC_NAME_WUP_PERMITTED
  match add_fields fc wup_permitted_fields_spec with
  | none => none
  | some field_ops =>
    some ([Op.addMessage ("\n\nCreating feature class " ++ FC_NAME_WUP_PERMITTED),
        Op.createFeatureclass OUTPUT_GEODATABASE FC_NAME_WUP_PERMITTED "POINT" UTM_16N_NAD83,
        Op.addMessage "\tAdding fields"]
      ++ field_ops
      ++ [Op.addMessage "\tGranting privileges",
        Op.changePrivileges fc "GIS_READ" "GRANT" "AS_IS"])

/-- Embedding of `create_databases_wup_surface`: the sequence of `arcpy` calls the
function issues, in source order. -/
def create_databases_wup_surface : Option (List Op) :=
  let fc := os_path_join OUTPUT_GEODATABASE FC_NAME_WUP_SURFACE
  match add_fields fc wup_surface_fields_spec with
  | none => none
  | some field_ops =>
    some ([Op.addMessage ("\n\nCreating feature class " ++ FC_NAME_WUP_SURFACE),
        Op.createFeatureclass OUTPUT_GEODATABASE FC_NAME_WUP_SURFACE "POINT" UTM_16N_NAD83,
        Op.addMessage "\tAdding fields"]
      ++ field_ops
      ++ [Op.addMessage "\tGranting privileges",
        Op.changePrivileges fc "GIS_READ" "GRANT" "AS_IS"])

/-- Embedding of `create_databases_wup_wells`: the sequence of `arcpy` calls the
function issues, in source order. -/
def create_databases_wup_wells : Option (List Op) :=
  let fc := os_path_join OUTPUT_GEODATABASE FC_NAME_WUP_WELLS
  match add_fields fc wup_wells_fields_spec with
  | none => none
  | some field_ops =>
    some ([Op.addMessage ("\n\nCreating feature class " ++ FC_NAME_WUP_WELLS),
        Op.createFeatureclass OUTPUT_GEODATABASE FC_NAME_WUP_WELLS "POINT" UTM_16N_NAD83,
        Op.addMessage "\tAdding fields"]
      ++ field_ops
      ++ [Op.addMessage "\tGranting privileges",
        Op.changePrivileges fc "GIS_READ" "GRANT" "AS_IS"])
/-- The reminder messages emitted at the end of the `__main__` block. -/
def main_closing_ops : List Op :=
  [Op.addMessage "\n",
   Op.addWarning "************************************************************",
   Op.addWarning "REMINDER: Manually set feature extent to district boundary",
   Op.addWarning "          for new feature classes",
   Op.addWarning "REMINDER: Manually import metadata from template file geodatabase",
   Op.addWarning "************************************************************",
   Op.addMessage "\n"]

/-- Embedding of the `__main__` block.  In the source, twelve of the thirteen
creation calls are commented out; the only live invocation is
`create_databases_well_permits()`, followed by the reminder messages. -/
def main_block : Option (List Op) :=
  match create_databases_well_permits with
  | none => none
  | some ops => some (ops ++ main_closing_ops)

/-- Names of the creation functions whose invocation in the `__main__` block
is live (not commented out). -/
def main_invoked_functions : List String := ["create_databases_well_permits"]

/-- One feature class creation function of the script: its Python name, the
feature class name constant it uses, its `fields_spec` literal, and the trace
of `arcpy` calls it issues. -/
structure CreationFunction where
  pyName : String
  fcName : String
  spec : List (List PyVal)
  trace : Option (List Op)
deriving DecidableEq

/-- All thirteen feature class creation functions defined in the script, in
source order. -/
def creation_functions : List CreationFunction :=
  [⟨"create_databases_erp", FC_NAME_ERP, erp_fields_spec, create_databases_erp⟩,
   ⟨"create_databases_erp_site", FC_NAME_ERP_SITE, erp_site_fields_spec,
     create_databases_erp_site⟩,
   ⟨"create_databases_erp_site_40a_4", FC_NAME_ERP_SITE_40A_4,
     erp_site_40a_4_fields_spec, create_databases_erp_site_40a_4⟩,
   ⟨"create_databases_erp_site_40a_44", FC_NAME_ERP_SITE_40A_44,
     erp_site_40a_44_fields_spec, create_databases_erp_site_40a_44⟩,
   ⟨"create_databases_erp_site_62_330", FC_NAME_ERP_SITE_62_330,
     erp_site_62_330_fields_spec, create_databases_erp_site_62_330⟩,
   ⟨"create_databases_erp_site_forestry", FC_NAME_ERP_SITE_FORESTRY,
     erp_site_forestry_fields_spec, create_databases_erp_site_forestry⟩,
   ⟨"create_databases_mssw", FC_NAME_MSSW, mssw_fields_spec,
     create_databases_mssw⟩,
   ⟨"create_databases_reg_station", FC_NAME_REG_STATION,
     reg_station_fields_spec, create_databases_reg_station⟩,
   ⟨"create_databases_well_inventory", FC_NAME_WI, well_inventory_fields_spec,
     create_databases_well_inventory⟩,
   ⟨"create_databases_well_permits", FC_NAME_WPS, well_permits_fields_spec,
     create_databases_well_permits⟩,
   ⟨"create_databases_wup_permitted", FC_NAME_WUP_PERMITTED,
     wup_permitted_fields_spec, create_databases_wup_permitted⟩,
   ⟨"create_databases_wup_surface", FC_NAME_WUP_SURFACE,
     wup_surface_fields_spec, create_databases_wup_surface⟩,
   ⟨"create_databases_wup_wells", FC_NAME_WUP_WELLS, wup_wells_fields_spec,
     create_databases_wup_wells⟩]

/-- Names of all creation functions defined in the script. -/
def creation_function_names : List String :=
  creation_functions.map (fun e => e.pyName)

/-- The geodatabase operations of a trace, log messages removed. -/
def gdb_ops (ops : List Op) : List Op := ops.filter Op.isGdb

/-- The call sequence claim C2 expects from `add_fields` (stated from the
specification, to be compared with the source-derived `add_fields`): for each
field specification, the progress message followed by one `AddField` whose
nine parameters are components 0 through 8 of that specification, in list
order. -/
def expected_field_ops (table : String) (fields_spec : List (List PyVal)) :
    List Op :=
  fields_spec.flatMap (fun fs =>
    [Op.addMessage ("\t\tAdding " ++ (fs.getD 0 (PyVal.s "")).toText),
     Op.addField table (fs.getD 0 (PyVal.s "")) (fs.getD 1 (PyVal.s ""))
       (fs.getD 2 (PyVal.s "")) (fs.getD 3 (PyVal.s ""))
       (fs.getD 4 (PyVal.s "")) (fs.getD 5 (PyVal.s ""))
       (fs.getD 6 (PyVal.s "")) (fs.getD 7 (PyVal.s ""))
       (fs.getD 8 (PyVal.s ""))])

/-- Interpreter of a call trace against a fallible API: calls are issued in
order and the first error aborts the run, so no later call is issued; the
error value is returned unchanged. -/
def run_api (api : Op → Except String Unit) : List Op → Except String (List Op)
  | [] => Except.ok []
  | o :: rest =>
    match api o with
    | Except.error e => Except.error e
    | Except.ok _ =>
      match run_api api rest with
      | Except.error e => Except.error e
      | Except.ok l => Except.ok (o :: l)

/-- An API stub on which every call fails, used to exercise the error path. -/
def fail_api : Op → Except String Unit := fun _ => Except.error "boom"

/-- The concrete call trace of `create_databases_erp`. -/
def erp_ops : List Op := create_databases_erp.getD []

/-- Decidable check for claim C1 on one creation function: its geodatabase
operations are exactly one `CreateFeatureclass` of an empty point feature
class, followed by the `AddField` operations of `add_fields` on its
specification list, followed by (possibly) index creations, and ending with a
single `ChangePrivileges` granting view to `GIS_READ` as the last geodatabase
operation. -/
def c1_shape (e : CreationFunction) : Bool :=
  match e.trace, add_fields (os_path_join OUTPUT_GEODATABASE e.fcName) e.spec with
  | some ops, some fops =>
    let g := gdb_ops ops
    let f := gdb_ops fops
    let createOp := Op.createFeatureclass OUTPUT_GEODATABASE e.fcName "POINT"
      UTM_16N_NAD83
    let grantOp := Op.changePrivileges
      (os_path_join OUTPUT_GEODATABASE e.fcName) "GIS_READ" "GRANT" "AS_IS"
    let mid := (g.drop (1 + f.length)).dropLast
    g == createOp :: (f ++ mid ++ [grantOp]) &&
      mid.all Op.isAddIndex &&
      (g.filter Op.isCreateFC).length == 1 &&
      (g.filter Op.isChangePriv).length == 1
  | _, _ => false

/-- Decidable check for claim C5 on one creation function: its single
`CreateFeatureclass` uses geometry `POINT` and spatial reference
`UTM_16N_NAD83` under `OUTPUT_GEODATABASE`, and every geodatabase operation
of the function targets that one dataset. -/
def c5_check (e : CreationFunction) : Bool :=
  match e.trace with
  | none => false
  | some ops =>
    ops.filter Op.isCreateFC ==
      [Op.createFeatureclass OUTPUT_GEODATABASE e.fcName "POINT" UTM_16N_NAD83] &&
    ops.all (fun o =>
      match o.target with
      | some t => t == os_path_join OUTPUT_GEODATABASE e.fcName
      | none => true)

/-- The `AddIndex` operations claim C6 expects from each creation function
(stated from the specification, to be compared with the source-derived
traces): two named indexes for the three well/station functions and none for
any other function. -/
def c6_expected_indexes (e : CreationFunction) : List Op :=
  let t := os_path_join OUTPUT_GEODATABASE e.fcName
  if e.pyName = "create_databases_reg_station" then
    [Op.addIndex t "FLUWID" (e.fcName ++ "__I1"),
     Op.addIndex t "LEGACY_PERMIT_NUMBER" (e.fcName ++ "__I2")]
  else if e.pyName = "create_databases_well_inventory" then
    [Op.addIndex t "NWF_ID" (e.fcName ++ "__I1"),
     Op.addIndex t "STATE_ID" (e.fcName ++ "__I2")]
  else if e.pyName = "create_databases_well_permits" then
    [Op.addIndex t "FLUWID" (e.fcName ++ "__I1"),
     Op.addIndex t "PERMIT_NUMBER" (e.fcName ++ "__I2")]
  else []

/-- Decidable check for claim C6 on one creation function: its geodatabase
operations are the feature class creation, then the field additions, then
exactly the expected `AddIndex` operations, then the privilege grant. -/
def c6_check (e : CreationFunction) : Bool :=
  match e.trace, add_fields (os_path_join OUTPUT_GEODATABASE e.fcName) e.spec with
  | some ops, some fops =>
    gdb_ops ops ==
      Op.createFeatureclass OUTPUT_GEODATABASE e.fcName "POINT" UTM_16N_NAD83 ::
        (gdb_ops fops ++ c6_expected_indexes e ++
          [Op.changePrivileges (os_path_join OUTPUT_GEODATABASE e.fcName)
            "GIS_READ" "GRANT" "AS_IS"])
  | _, _ => false

/-- Per-dataset, per-user privilege state, interpreting the documented
semantics of `ChangePrivileges`: `GRANT` sets a privilege, `REVOKE` clears
it, and `AS_IS` leaves it untouched. -/
structure PrivState where
  view : String → String → Bool
  edit : String → String → Bool

/-- Effect of one call on the privilege state; calls other than
`ChangePrivileges` do not touch privileges. -/
def apply_privilege_op (st : PrivState) : Op → PrivState
  | Op.changePrivileges ds u v e =>
    { view := fun d w =>
        if d = ds ∧ w = u then
          if v = "GRANT" then true else if v = "REVOKE" then false
          else st.view d w
        else st.view d w
      edit := fun d w =>
        if d = ds ∧ w = u then
          if e = "GRANT" then true else if e = "REVOKE" then false
          else st.edit d w
        else st.edit d w }
  | _ => st

/-- Privilege state after running a whole call trace. -/
def run_privileges (ops : List Op) (st : PrivState) : PrivState :=
  ops.foldl apply_privilege_op st

/-- Decidable check that every `ChangePrivileges` call in a trace targets
user `GIS_READ` with `View = GRANT` and `Edit = AS_IS`. -/
def priv_calls_ok (ops : List Op) : Bool :=
  ops.all (fun o =>
    match o with
    | Op.changePrivileges _ u v e =>
      u == "GIS_READ" && v == "GRANT" && e == "AS_IS"
    | _ => true)

/-- A concrete privilege state used to exercise the frame property. -/
def test_priv_state : PrivState :=
  ⟨fun _ _ => false, fun _ _ => true⟩

/-- A run of the script: the script takes no input, so a run is a constant
function of a trivial argument. -/
def run_script (_ : Unit) : Option (List Op) := main_block

/-- Decidable check for claim C10 on one field specification: precision and
scale are empty, the column is nullable, not required, and bound to no
domain. -/
def c10_row_ok (fs : List PyVal) : Bool :=
  fs.getD 2 (PyVal.i 0) == PyVal.s "" &&
  fs.getD 3 (PyVal.i 0) == PyVal.s "" &&
  fs.getD 6 (PyVal.i 0) == PyVal.b true &&
  fs.getD 7 (PyVal.i 0) == PyVal.s "" &&
  fs.getD 8 (PyVal.i 0) == PyVal.s ""

set_option maxRecDepth 8000

theorem add_fields_eq_expected (table : String) (fields_spec : List (List PyVal))
    (h : ∀ fs ∈ fields_spec, 9 ≤ fs.length) :
    add_fields table fields_spec = some (expected_field_ops table fields_spec) := by
  induction fields_spec with
  | nil => rfl
  | cons fs rest ih =>
    have h9 : 9 ≤ fs.length := h fs (List.mem_cons_self fs rest)
    have ih' := ih (fun x hx => h x (List.mem_cons_of_mem fs hx))
    have e : ∀ i : Nat, i < 9 → fs[i]? = some (fs.getD i (PyVal.s "")) := by
      intro i hi
      have hlt : i < fs.length := Nat.lt_of_lt_of_le hi h9
      rw [List.getD_eq_getElem?_getD, List.getElem?_eq_getElem hlt]
      rfl
    simp only [add_fields, e 0 (by omega), e 1 (by omega), e 2 (by omega),
      e 3 (by omega), e 4 (by omega), e 5 (by omega), e 6 (by omega),
      e 7 (by omega), e 8 (by omega), ih', Option.some_bind,
      expected_field_ops, List.flatMap_cons, Option.bind_eq_bind]
    rfl

theorem run_api_error_first (api : Op → Except String Unit) :
    ∀ ops : List Op, ∀ err : String, run_api api ops = Except.error err →
    ∃ (i : Nat) (o : Op), ops[i]? = some o ∧ api o = Except.error err ∧
      ∀ j, j < i → ∀ o', ops[j]? = some o' → api o' = Except.ok () := by
  intro ops
  induction ops with
  | nil => intro err hrun; simp [run_api] at hrun
  | cons o rest ih =>
    intro err hrun
    cases hapi : api o with
    | error ev =>
      have hv : ev = err := by
        simp only [run_api, hapi] at hrun
        exact (Except.error.injEq _ _).mp hrun
      refine ⟨0, o, List.getElem?_cons_zero, by rw [hapi, hv], ?_⟩
      intro j hj
      exact absurd hj (Nat.not_lt_zero j)
    | ok u =>
      cases u
      have hrest : run_api api rest = Except.error err := by
        simp only [run_api, hapi] at hrun
        cases hr : run_api api rest with
        | error e' => rw [hr] at hrun; exact hrun
        | ok l => rw [hr] at hrun; cases hrun
      obtain ⟨i, o', hidx, herr, hbefore⟩ := ih err hrest
      refine ⟨i + 1, o', by simpa using hidx, herr, ?_⟩
      intro j hj o'' hjo
      cases j with
      | zero =>
        have hoo : o = o'' := by simpa using hjo
        rw [← hoo, hapi]
      | succ k =>
        exact hbefore k (by omega) o'' (by simpa using hjo)

theorem run_privileges_frame : ∀ ops : List Op, priv_calls_ok ops = true →
    ∀ st d u, (run_privileges ops st).edit d u = st.edit d u ∧
      (u ≠ "GIS_READ" → (run_privileges ops st).view d u = st.view d u) := by
  intro ops
  induction ops with
  | nil => intro _ st d u; exact ⟨rfl, fun _ => rfl⟩
  | cons o rest ih =>
    intro hok st d u
    have hok' : priv_calls_ok rest = true := by
      simp only [priv_calls_ok, List.all_cons, Bool.and_eq_true] at hok
      exact hok.2
    have hstep : (apply_privilege_op st o).edit d u = st.edit d u ∧
        (u ≠ "GIS_READ" → (apply_privilege_op st o).view d u = st.view d u) := by
      cases o with
      | changePrivileges ds us vs es =>
        simp only [priv_calls_ok, List.all_cons, Bool.and_eq_true,
          beq_iff_eq] at hok
        obtain ⟨⟨⟨hu, hv⟩, he⟩, -⟩ := hok
        subst hu
        subst hv
        subst he
        constructor
        · by_cases hc : d = ds ∧ u = "GIS_READ"
          · simp [apply_privilege_op, hc]
          · simp [apply_privilege_op, hc]
        · intro hne
          simp [apply_privilege_op, hne]
      | addMessage m => exact ⟨rfl, fun _ => rfl⟩
      | addWarning m => exact ⟨rfl, fun _ => rfl⟩
      | createFeatureclass a b c d2 => exact ⟨rfl, fun _ => rfl⟩
      | addField a b c d2 e2 f2 g2 h2 i2 j2 => exact ⟨rfl, fun _ => rfl⟩
      | addIndex a b c => exact ⟨rfl, fun _ => rfl⟩
    have hfold : run_privileges (o :: rest) st =
        run_privileges rest (apply_privilege_op st o) := rfl
    refine ⟨?_, ?_⟩
    · rw [hfold, (ih hok' (apply_privilege_op st o) d u).1, hstep.1]
    · intro hne
      rw [hfold, (ih hok' (apply_privilege_op st o) d u).2 hne, hstep.2 hne]

/-- C1: every feature class creation function issues exactly one
`CreateFeatureclass` call creating one empty point feature class, then adds
its fixed, function-specific list of typed columns via `add_fields`, and
afterwards issues exactly one `ChangePrivileges` call granting view to the
fixed role `GIS_READ`, the grant being the last geodatabase operation of the
function. -/
theorem c1_create_fields_grant :
    ∀ e ∈ creation_functions, c1_shape e = true := by decide

/-- Witness for C1, instantiating it at `create_databases_erp`. -/
theorem c1_create_fields_grant_witness :
    c1_shape ⟨"create_databases_erp", FC_NAME_ERP, erp_fields_spec,
      create_databases_erp⟩ = true :=
  c1_create_fields_grant _ (by decide)

/-- C2: for every table name and every list of 9-element field
specifications, `add_fields` issues exactly one `AddField` call per
specification, in list order, passing the nine components unchanged to the
corresponding `AddField` parameters, with no validation, transformation,
filtering, or reordering. -/
theorem c2_add_fields_passthrough :
    ∀ (table : String) (fields_spec : List (List PyVal)),
      (∀ fs ∈ fields_spec, fs.length = 9) →
      add_fields table fields_spec =
        some (expected_field_ops table fields_spec) :=
  fun table fields_spec h =>
    add_fields_eq_expected table fields_spec (fun fs hfs => (h fs hfs).ge)

/-- Witness for C2, instantiating it at a concrete one-row specification and
evaluating both sides. -/
theorem c2_add_fields_passthrough_witness :
    add_fields "T" [[PyVal.s "fluwid", PyVal.s "TEXT", PyVal.s "",
      PyVal.s "", PyVal.i 50, PyVal.s "", PyVal.b true, PyVal.s "",
      PyVal.s ""]] =
      some [Op.addMessage "\t\tAdding fluwid",
        Op.addField "T" (PyVal.s "fluwid") (PyVal.s "TEXT") (PyVal.s "")
          (PyVal.s "") (PyVal.i 50) (PyVal.s "") (PyVal.b true) (PyVal.s "")
          (PyVal.s "")] :=
  (c2_add_fields_passthrough "T" _ (by decide)).trans (by decide)

/-- C3 counterexample: `create_databases_erp` is a creation function defined
in the script, yet the `__main__` block does not invoke it — its call is
commented out — so it is false that every creation function defined in the
file is called when the script is run as a program. -/
theorem c3_counterexample_erp_not_invoked :
    "create_databases_erp" ∈ creation_function_names ∧
    "create_databases_erp" ∉ main_invoked_functions := by decide

/-- C3 (amended): when the script is run as a program, the `__main__` block
invokes exactly one of the thirteen creation functions,
`create_databases_well_permits`; the other twelve calls are present in the
block but commented out, and the run's trace is that function's trace
followed by the closing reminder messages. -/
theorem c3_main_invokes_well_permits_only :
    main_invoked_functions = ["create_databases_well_permits"] ∧
    "create_databases_well_permits" ∈ creation_function_names ∧
    ∃ ops, create_databases_well_permits = some ops ∧
      main_block = some (ops ++ main_closing_ops) :=
  ⟨rfl, by decide, create_databases_well_permits.getD [], by decide, by decide⟩

/-- C4: neither the creation functions nor `add_fields` contain exception
handling, retries, or validation: running any of their traces against an API
on which some call fails returns that call's error unchanged, the failing
call is an operation of the trace, every earlier operation succeeded, and —
by the semantics of `run_api`, which stops at the first error — no operation
after the failing call is issued. -/
theorem c4_error_propagation :
    (∀ e ∈ creation_functions, ∀ ops, e.trace = some ops →
      ∀ api err, run_api api ops = Except.error err →
      ∃ (i : Nat) (o : Op), ops[i]? = some o ∧ api o = Except.error err ∧
        ∀ j, j < i → ∀ o', ops[j]? = some o' → api o' = Except.ok ()) ∧
    (∀ table fields_spec ops, add_fields table fields_spec = some ops →
      ∀ api err, run_api api ops = Except.error err →
      ∃ (i : Nat) (o : Op), ops[i]? = some o ∧ api o = Except.error err ∧
        ∀ j, j < i → ∀ o', ops[j]? = some o' → api o' = Except.ok ()) :=
  ⟨fun _ _ ops _ api err h => run_api_error_first api ops err h,
   fun _ _ ops _ api err h => run_api_error_first api ops err h⟩

/-- Witness for C4: running `create_databases_erp`'s trace against an API on
which every call fails surfaces the error of the first call. -/
theorem c4_error_propagation_witness :
    ∃ (i : Nat) (o : Op), erp_ops[i]? = some o ∧
      fail_api o = Except.error "boom" ∧
      ∀ j, j < i → ∀ o', erp_ops[j]? = some o' → fail_api o' = Except.ok () :=
  c4_error_propagation.1
    ⟨"create_databases_erp", FC_NAME_ERP, erp_fields_spec,
      create_databases_erp⟩
    (by decide) erp_ops rfl fail_api "boom" rfl

/-- C5: every feature class is created as a point feature class with the
single spatial reference `UTM_16N_NAD83` (well-known ID 26916) under the
single database connection `OUTPUT_GEODATABASE`
(`Database Connections\orcl$gis.sde`), and every geodatabase operation of
each creation function targets that one dataset. -/
theorem c5_point_utm_geodatabase :
    UTM_16N_NAD83 = 26916 ∧
    OUTPUT_GEODATABASE = "Database Connections\\orcl$gis.sde" ∧
    ∀ e ∈ creation_functions, c5_check e = true :=
  ⟨rfl, rfl, by decide⟩

/-- Witness for C5, instantiating it at `create_databases_wup_wells`. -/
theorem c5_point_utm_geodatabase_witness :
    c5_check ⟨"create_databases_wup_wells", FC_NAME_WUP_WELLS,
      wup_wells_fields_spec, create_databases_wup_wells⟩ = true :=
  c5_point_utm_geodatabase.2.2 _ (by decide)

/-- C6: exactly three creation functions create attribute indexes —
`create_databases_reg_station` (FLUWID, LEGACY_PERMIT_NUMBER),
`create_databases_well_inventory` (NWF_ID, STATE_ID) and
`create_databases_well_permits` (FLUWID, PERMIT_NUMBER) — each adding two
indexes named `<feature class name>__I1` and `__I2` after all fields are
added and before privileges are granted, while no other creation function
issues any `AddIndex` call. -/
theorem c6_indexes_exactly_three :
    ∀ e ∈ creation_functions, c6_check e = true := by decide

/-- Witness for C6, instantiating it at `create_databases_reg_station`. -/
theorem c6_indexes_exactly_three_witness :
    c6_check ⟨"create_databases_reg_station", FC_NAME_REG_STATION,
      reg_station_fields_spec, create_databases_reg_station⟩ = true :=
  c6_indexes_exactly_three _ (by decide)

/-- C7: every creation function's single `ChangePrivileges` call grants view
to user `GIS_READ` and passes `Edit = AS_IS`; consequently, running any
creation function's trace through the privilege semantics leaves the edit
privilege of every dataset and user unchanged, and leaves the view privilege
of every user other than `GIS_READ` unchanged. -/
theorem c7_privileges_view_only :
    (∀ e ∈ creation_functions, ∀ ops, e.trace = some ops →
      ops.filter Op.isChangePriv =
        [Op.changePrivileges (os_path_join OUTPUT_GEODATABASE e.fcName)
          "GIS_READ" "GRANT" "AS_IS"]) ∧
    (∀ e ∈ creation_functions, ∀ ops, e.trace = some ops → ∀ st d u,
      (run_privileges ops st).edit d u = st.edit d u ∧
      (u ≠ "GIS_READ" → (run_privileges ops st).view d u = st.view d u)) := by
  constructor
  · have hall : ∀ e ∈ creation_functions,
        (match e.trace with
         | some l => l.filter Op.isChangePriv ==
             [Op.changePrivileges (os_path_join OUTPUT_GEODATABASE e.fcName)
               "GIS_READ" "GRANT" "AS_IS"]
         | none => false) = true := by decide
    intro e he ops hops
    have h := hall e he
    rw [hops] at h
    simpa using h
  · have hall : ∀ e ∈ creation_functions,
        (match e.trace with
         | some l => priv_calls_ok l
         | none => false) = true := by decide
    intro e he ops hops st d u
    have h := hall e he
    rw [hops] at h
    exact run_privileges_frame ops h st d u

/-- Witness for C7: the edit privilege of user `PUBLIC` on the ERP feature
class is unchanged by `create_databases_erp`'s trace. -/
theorem c7_privileges_view_only_witness :
    (run_privileges erp_ops test_priv_state).edit
        (os_path_join OUTPUT_GEODATABASE FC_NAME_ERP) "PUBLIC" =
      test_priv_state.edit (os_path_join OUTPUT_GEODATABASE FC_NAME_ERP)
        "PUBLIC" :=
  (c7_privileges_view_only.2
    ⟨"create_databases_erp", FC_NAME_ERP, erp_fields_spec,
      create_databases_erp⟩
    (by decide) erp_ops rfl test_priv_state
    (os_path_join OUTPUT_GEODATABASE FC_NAME_ERP) "PUBLIC").1

/-- C8: the program takes no input and is deterministic: a run is a constant
function of a trivial argument, any two runs emit the identical call
sequence, the run's trace is defined (no data-dependent failure), and every
creation function's emitted operation sequence is a fixed, defined
constant. -/
theorem c8_deterministic_no_input :
    (∀ u v : Unit, run_script u = run_script v) ∧
    main_block.isSome = true ∧
    ∀ e ∈ creation_functions, e.trace.isSome = true :=
  ⟨fun _ _ => rfl, by decide, by decide⟩

/-- Witness for C8, instantiating it at a pair of runs and at
`create_databases_erp`. -/
theorem c8_deterministic_no_input_witness :
    run_script () = run_script () ∧ create_databases_erp.isSome = true :=
  ⟨c8_deterministic_no_input.1 () (),
   c8_deterministic_no_input.2.2
     ⟨"create_databases_erp", FC_NAME_ERP, erp_fields_spec,
       create_databases_erp⟩
     (by decide)⟩

/-- C9: `add_fields` indexes each field specification at positions 0 through
8; whenever every specification has at least nine components, no access is
out of bounds (the `Option`-valued embedding returns `some`), and this
precondition holds at every call site of the script, where each
specification is a literal 9-tuple.  Totality of `add_fields` (termination
on every finite list) holds by its structural recursion. -/
theorem c9_field_indexing_safe :
    (∀ (table : String) (fields_spec : List (List PyVal)),
      (∀ fs ∈ fields_spec, 9 ≤ fs.length) →
      (add_fields table fields_spec).isSome = true) ∧
    ∀ e ∈ creation_functions, ∀ fs ∈ e.spec, fs.length = 9 := by
  constructor
  · intro table l h
    rw [add_fields_eq_expected table l h]
    rfl
  · decide

/-- Witness for C9, instantiating the totality part at the call site of
`create_databases_erp`. -/
theorem c9_field_indexing_safe_witness :
    (add_fields (os_path_join OUTPUT_GEODATABASE FC_NAME_ERP)
      erp_fields_spec).isSome = true :=
  c9_field_indexing_safe.1 _ erp_fields_spec (by decide)

/-- C10: every column declared anywhere in the script is nullable and
unconstrained: in all thirteen specification lists, every specification has
`nullable = True`, `required = ''`, `domain = ''`, `precision = ''` and
`scale = ''`. -/
theorem c10_columns_nullable_unconstrained :
    ∀ e ∈ creation_functions, ∀ fs ∈ e.spec, c10_row_ok fs = true := by decide

/-- Witness for C10, instantiating it at the first column of
`create_databases_erp`. -/
theorem c10_columns_nullable_unconstrained_witness :
    c10_row_ok [PyVal.s "application_number", PyVal.s "DOUBLE", PyVal.s "",
      PyVal.s "", PyVal.s "", PyVal.s "", PyVal.b true, PyVal.s "",
      PyVal.s ""] = true :=
  c10_columns_nullable_unconstrained
    ⟨"create_databases_erp", FC_NAME_ERP, erp_fields_spec,
      create_databases_erp⟩
    (by decide) _ (by decide)
